import Mathlib

/-!
Shallow embedding of the templer static-site engine (`src/api.ts`) and
verification of its specification claims.

The embedding models the `Templer` class: its state bag (`TemplerData`),
the dependency trackers, the expiring cache store, the wrapper-aware
recursive renderer, the path-guarded output writer, and the generation
orchestrator (`generatePages`).  External primitives (the `path` module's
`resolve`/`dirname`, the `isRelative` containment test from the shared
library, `fs.existsSync`, `JSON.stringify`, wall-clock time, and the
JavaScript interpretation of user generate-script text) are taken as
parameters bundled in an `Ext` structure; everything else is translated
directly from the TypeScript source.  Filesystem mutations are modelled
as an explicit effect trace.
-/

set_option maxRecDepth 4000
set_option linter.unnecessarySimpa false

namespace Templer

/-- JavaScript runtime values, restricted to the fragment the engine
manipulates: primitives plus the opaque global-data access proxy object. -/
inductive JsVal where
  | undef
  | null
  | nan
  | bool (b : Bool)
  | num (n : Int)
  | str (s : String)
  | proxy (page : String)
deriving Repr, DecidableEq

/-- JavaScript truthiness of a modelled value (`undefined`, `null`, `NaN`,
`false`, `0` and `""` are falsy; objects are truthy). -/
def JsVal.truthy : JsVal → Bool
  | .undef => false
  | .null => false
  | .nan => false
  | .bool b => b
  | .num n => n != 0
  | .str s => s != ""
  | .proxy _ => true

/-- Kernel-reducible split of a character list at every occurrence of a
separator character (JavaScript `split` semantics: the empty list yields
one empty piece). -/
def splitChar (sep : Char) : List Char → List (List Char)
  | [] => [[]]
  | c :: rest =>
    let r := splitChar sep rest
    if c = sep then [] :: r
    else
      match r with
      | h :: t => (c :: h) :: t
      | [] => [[c]]

/-- Model of JavaScript `s.split(sep)` for a one-character separator. -/
def jsSplit (s : String) (sep : Char) : List String :=
  (splitChar sep s.data).map String.mk

/-- Kernel-reducible drop of the first `n` characters. -/
def strDrop (s : String) (n : Nat) : String :=
  String.mk (s.data.drop n)

/-- Kernel-reducible drop of the last `n` characters. -/
def strDropRight (s : String) (n : Nat) : String :=
  String.mk (s.data.take (s.data.length - n))

/-- Kernel-reducible whitespace trim. -/
def strTrim (s : String) : String :=
  String.mk (((s.data.dropWhile Char.isWhitespace).reverse.dropWhile Char.isWhitespace).reverse)

/-- Kernel-reducible prefix test. -/
def strStarts (s pre : String) : Bool :=
  pre.data.isPrefixOf s.data

/-- Kernel-reducible suffix test. -/
def strEnds (s suf : String) : Bool :=
  suf.data.reverse.isPrefixOf s.data.reverse

/-- Join a list of strings with a separator (kernel-reducible
`intercalate`). -/
def joinSep (sep : String) : List String → String
  | [] => ""
  | [x] => x
  | x :: rest => x ++ sep ++ joinSep sep rest

/-- Digit run parser used to model `Number(...)` coercion of strings. -/
def digitsToNat? : List Char → Option Nat
  | [] => none
  | [c] => if c.isDigit then some (c.toNat - 48) else none
  | c :: rest =>
    if c.isDigit then
      (digitsToNat? rest).map (fun n => (c.toNat - 48) * 10 ^ rest.length + n)
    else none

/-- Model of JavaScript `Number(s)` for a string (integral values only;
`none` stands for `NaN`). -/
def strToNum? (s : String) : Option Int :=
  let t := strTrim s
  if t = "" then some 0
  else
    match t.toList with
    | '-' :: rest => (digitsToNat? rest).map (fun n => -(n : Int))
    | '+' :: rest => (digitsToNat? rest).map (fun n => (n : Int))
    | l => (digitsToNat? l).map (fun n => (n : Int))

/-- Model of JavaScript `Number(v)` coercion; `none` stands for `NaN`,
so `isNaN(v)` is `(toNum? v).isNone`. -/
def JsVal.toNum? : JsVal → Option Int
  | .undef => none
  | .null => some 0
  | .nan => none
  | .bool b => some (if b then 1 else 0)
  | .num n => some n
  | .str s => strToNum? s
  | .proxy _ => none

/-- Model of JavaScript string coercion of a value (used for object keys). -/
def JsVal.toStr : JsVal → String
  | .undef => "undefined"
  | .null => "null"
  | .nan => "NaN"
  | .bool b => if b then "true" else "false"
  | .num n => toString n
  | .str s => s
  | .proxy _ => "[object Object]"

/-- JavaScript objects used as string-keyed dictionaries are modelled as
association lists preserving property-insertion order. -/
abbrev SMap (V : Type) := List (String × V)

/-- Dictionary lookup: `m[k]`, `none` meaning `undefined`. -/
def smapFind? {V : Type} (m : SMap V) (k : String) : Option V :=
  match m with
  | [] => none
  | (k₀, v₀) :: rest => if k₀ = k then some v₀ else smapFind? rest k

/-- Dictionary update `m[k] = v`: an existing key keeps its position, a
new key is appended (JavaScript property-order semantics). -/
def smapSet {V : Type} (m : SMap V) (k : String) (v : V) : SMap V :=
  match m with
  | [] => [(k, v)]
  | (k₀, v₀) :: rest => if k₀ = k then (k, v) :: rest else (k₀, v₀) :: smapSet rest k v

/-- Dictionary deletion `delete m[k]`. -/
def smapErase {V : Type} (m : SMap V) (k : String) : SMap V :=
  m.filter (fun p => p.1 ≠ k)

/-- Key-membership test (`k in m`). -/
def smapHasKey {V : Type} (m : SMap V) (k : String) : Bool :=
  (smapFind? m k).isSome

/-- Object spread `{...a, ...b}`: entries of `b` override entries of `a`. -/
def smapMerge {V : Type} (a b : SMap V) : SMap V :=
  b.foldl (fun acc p => smapSet acc p.1 p.2) a

/-- Front matter / page data object: arbitrary key-value entries. -/
abbrev PageData := SMap JsVal

/-- Reverse dependency set: a map from dependent page name to `true`
(the source's `Dependencies` type). -/
abbrev Dependencies := SMap Bool

/-- Reverse dependency index: resource key to its dependent set
(the source's `DependencyTree` type). -/
abbrev DepTree := SMap Dependencies

/-- Cache entry: optional expiry timestamp plus opaque data.  The loaded
cache file may hold any JSON value in `expires`, so it is a `JsVal`. -/
structure CacheItem where
  expires : JsVal
  data : JsVal
deriving Repr, DecidableEq

/-- One named cache group: entry name to cache item. -/
abbrev CacheData := SMap CacheItem

/-- The whole cache store: group name to group. -/
abbrev Cache := SMap CacheData

/-- Trigger cause of a queued generation request. -/
inductive TriggerReason where
  | Added
  | Modified
  | Deleted
deriving Repr, DecidableEq

/-- Pending-generation queue entry (the source's `ToGenerateData`). -/
structure ToGenerateData where
  name : String
  generate : String
  triggeredBy : String
  reason : TriggerReason
deriving Repr, DecidableEq

/-- Output-ledger record (the source's `FilesWritten`). -/
structure FilesWritten where
  source : String
  path : String
  time : String
deriving Repr, DecidableEq

/-- Output ledger, partitioned by artifact category, plus the per-page
structured `outData` surfaced to the post-run hook. -/
structure OutputData where
  html : List FilesWritten
  entry : List FilesWritten
  lib : List FilesWritten
  json : List FilesWritten
  outData : SMap JsVal
deriving Repr, DecidableEq

/-- Compiled-template interface: an EJS client function is observed by the
engine only through the text it emits and the `include` calls it makes, so
a compiled template is modelled as the interleaving of literal text parts
and include requests (an include may pass extra data). -/
inductive TPart where
  | text (s : String)
  | inc (name : String) (data : Option PageData)
deriving Repr, DecidableEq

/-- Body of a compiled template. -/
abbrev Tmpl := List TPart

/-- The engine state bag (the source's `TemplerData`). -/
structure TState where
  generateScripts : SMap String
  generateScriptRefs : SMap String
  entryScripts : SMap String
  templateDepTree : DepTree
  pathDepTree : DepTree
  wildDepTree : DepTree
  globalDeps : Dependencies
  frontMatter : SMap PageData
  templates : SMap Tmpl
  toGenerate : SMap ToGenerateData
  globalData : PageData
  cache : Cache
  outputData : OutputData
  errorCount : Nat
deriving Repr, DecidableEq

/-- The empty initial state (the source's field initializer). -/
def TState.initial : TState :=
  { generateScripts := []
    generateScriptRefs := []
    entryScripts := []
    templateDepTree := []
    pathDepTree := []
    wildDepTree := []
    globalDeps := []
    frontMatter := []
    templates := []
    toGenerate := []
    globalData := []
    cache := []
    outputData := { html := [], entry := [], lib := [], json := [], outData := [] }
    errorCount := 0 }

/-- Filesystem mutation effects emitted by the engine. -/
inductive FsEffect where
  | write (path : String) (content : String)
  | mkdir (path : String)
deriving Repr, DecidableEq

/-- Directory configuration (readonly constructor arguments of `Templer`). -/
structure Config where
  inputDir : String
  dataDir : String
  outputDir : String
  cacheDir : String
deriving Repr, DecidableEq

/-- Source `fixPath`: trim one trailing slash if present. -/
def fixPath (path : String) : String :=
  if path.length ≠ 0 ∧ strEnds path "/" then strDropRight path 1 else path

/-- Source `getEntryScriptName`: `"main"` for the empty path, otherwise the
last slash-separated segment. -/
def getEntryScriptName (path : String) : String :=
  let parts := jsSplit path '/'
  if path = "" then "main"
  else if parts.length ≠ 0 then parts.getLastD "main"
  else "main"

/-- Count of `*` wildcard characters in a generate target
(`(generate.match(/\*/g) || []).length`). -/
def countStars (s : String) : Nat :=
  s.toList.count '*'

/-- Split a string at its first `*`, returning the parts before and after
it, or `none` when it holds no `*`. -/
def splitAtStar : List Char → Option (List Char × List Char)
  | [] => none
  | c :: rest =>
    if c = '*' then some ([], rest)
    else (splitAtStar rest).map (fun p => (c :: p.1, p.2))

/-- JavaScript replacement-string expansion for `String.replace` with the
pattern `/\*/`: `$$` is a literal dollar, `$&` the matched `*`, a dollar
followed by a backquote the text before the match, `$'` the text after it;
anything else (including `$1`, as the pattern has no capture groups) is
literal. -/
def dollarExpand (pre suf : List Char) : List Char → List Char
  | [] => []
  | c :: rest =>
    if c = '$' then
      match rest with
      | [] => ['$']
      | c₂ :: rest₂ =>
        if c₂ = '$' then '$' :: dollarExpand pre suf rest₂
        else if c₂ = '&' then '*' :: dollarExpand pre suf rest₂
        else if c₂ = Char.ofNat 96 then pre ++ dollarExpand pre suf rest₂
        else if c₂ = '\'' then suf ++ dollarExpand pre suf rest₂
        else '$' :: c₂ :: dollarExpand pre suf rest₂
    else c :: dollarExpand pre suf rest

/-- Model of `s.replace(/\*/, repl)`: the first `*` is replaced by the
dollar-expanded replacement string; a string without `*` is unchanged. -/
def jsReplaceStar (s repl : String) : String :=
  match splitAtStar s.toList with
  | none => s
  | some (pre, suf) =>
    String.mk (pre ++ dollarExpand pre suf repl.toList ++ suf)

/-- Plain wildcard substitution, written from the specification's words
("the path obtained by substituting the wildcard with the supplied path
fragment"), to be compared with the source-derived `jsReplaceStar`. -/
def substStar (s repl : String) : String :=
  match splitAtStar s.toList with
  | none => s
  | some (pre, suf) => String.mk (pre ++ repl.toList ++ suf)

/-- Replacement strings without `$` are expanded literally. -/
theorem dollarExpand_no_dollar (pre suf : List Char) (l : List Char)
    (h : '$' ∉ l) : dollarExpand pre suf l = l := by
  induction l with
  | nil => rfl
  | cons c rest ih =>
    simp only [List.mem_cons, not_or] at h
    have hc : ¬ (c = '$') := fun he => h.1 he.symm
    unfold dollarExpand
    rw [if_neg hc, ih h.2]

/-- On dollar-free fragments the source's `replace` agrees with the plain
substitution the specification describes. -/
theorem jsReplaceStar_eq_substStar (s repl : String)
    (h : '$' ∉ repl.toList) : jsReplaceStar s repl = substStar s repl := by
  unfold jsReplaceStar substStar
  cases hsp : splitAtStar s.toList with
  | none => rfl
  | some p =>
    obtain ⟨pre, suf⟩ := p
    show String.mk (pre ++ dollarExpand pre suf repl.toList ++ suf)
      = String.mk (pre ++ repl.toList ++ suf)
    rw [dollarExpand_no_dollar pre suf repl.toList h]

/-- Source `getCacheName`: every page and hook shares the single `"shared"`
cache group (the per-script branch is commented out in the source). -/
def getCacheName (_name : String) : String :=
  "shared"

/-- Source `markDependsOn`: record in the template dependency index that
`template` depends on `dependency` (reverse indexed). -/
def markDependsOn (t : DepTree) (template dependency : String) : DepTree :=
  let cur := (smapFind? t dependency).getD []
  smapSet t dependency (smapSet cur template true)

/-- Source `getGenerateScript`: a page's own generate script if non-empty,
else the script of its `generate-use` reference, else `""`. -/
def getGenerateScript (st : TState) (name : String) : String :=
  let s := (smapFind? st.generateScripts name).getD ""
  if s ≠ "" then s
  else
    let ref := (smapFind? st.generateScriptRefs name).getD ""
    if ref ≠ "" then
      let s₂ := (smapFind? st.generateScripts ref).getD ""
      if s₂ ≠ "" then s₂ else ""
    else ""

/-- Source `safeOutputCheck` specialised to `fs.writeFile`: refuse (by
throwing) any path for which the containment test fails, otherwise emit
the write effect. -/
def safeOutputCheckWrite (isRel : String → String → Bool) (outPath path content : String) :
    Except String FsEffect :=
  if ¬ isRel outPath path then
    .error ("Trying to write " ++ path ++ " which is outside of " ++ outPath)
  else
    .ok (.write path content)

/-- Source `safeOutputCheck` specialised to `fs.mkdirSync`. -/
def safeOutputCheckMkdir (isRel : String → String → Bool) (outPath path : String) :
    Except String FsEffect :=
  if ¬ isRel outPath path then
    .error ("Trying to write " ++ path ++ " which is outside of " ++ outPath)
  else
    .ok (.mkdir path)

/-- The filesystem path an effect touches. -/
def effectPath : FsEffect → String
  | .write p _ => p
  | .mkdir p => p

/-- An effect lies within the configured output root according to the
containment test used by the write guards. -/
def effectSafe (isRel : String → String → Bool) (outPath : String) (eff : FsEffect) : Bool :=
  isRel outPath (effectPath eff)

/-- Source `getGlobalDataAccessProxy`'s `get` trap: a read of `key` by
page `name` throws when the stored value is falsy (in particular when the
key is absent), and otherwise records the page in the global-data
dependent set and returns the stored value. -/
def globalProxyGet (st : TState) (name key : String) : Except String (JsVal × TState) :=
  let v := (smapFind? st.globalData key).getD .undef
  if ¬ v.truthy then
    .error ("Accessing undefined global data Element: " ++ key)
  else
    .ok (v, { st with globalDeps := smapSet st.globalDeps name true })

/-- Source `processDeletedTemplatePromise`: scrub a deleted template from
the engine state (scripts, path/glob/global dependency indexes, front
matter, queue, the page's cache group, per-page outData). -/
def processDeletedTemplatePromise (st : TState) (template : String) : TState :=
  { st with
    generateScripts := smapErase st.generateScripts template
    generateScriptRefs := smapErase st.generateScriptRefs template
    entryScripts := smapErase st.entryScripts template
    pathDepTree := st.pathDepTree.map (fun p => (p.1, smapErase p.2 template))
    wildDepTree := st.wildDepTree.map (fun p => (p.1, smapErase p.2 template))
    globalDeps := smapErase st.globalDeps template
    frontMatter := smapErase st.frontMatter template
    toGenerate := smapErase st.toGenerate template
    cache := smapErase st.cache (getCacheName template)
    outputData := { st.outputData with outData := smapErase st.outputData.outData template } }

/-- Expiry scan over the items of one cache group (the inner loop of
`expireCache`): a truthy `expires` that coerces to a number is compared
with the clock and the item dropped when past; a truthy `expires` that is
`NaN` after coercion throws the fatal invalid-date error; a falsy
`expires` is ignored. -/
def expireItems (now : Int) (cacheName : String) :
    List (String × CacheItem) → Except String (List (String × CacheItem))
  | [] => .ok []
  | (itemName, item) :: rest =>
    if item.expires.truthy then
      match item.expires.toNum? with
      | some x =>
        if now > x then expireItems now cacheName rest
        else (expireItems now cacheName rest).map (fun r => (itemName, item) :: r)
      | none =>
        .error (cacheName ++ " cache item " ++ itemName ++ " expires date is invalid")
    else (expireItems now cacheName rest).map (fun r => (itemName, item) :: r)

/-- Source `expireCache`: run the expiry scan over every cache group. -/
def expireCache (now : Int) : Cache → Except String Cache
  | [] => .ok []
  | (cacheName, group) :: rest =>
    match expireItems now cacheName group with
    | .error e => .error e
    | .ok g =>
      match expireCache now rest with
      | .error e => .error e
      | .ok r => .ok ((cacheName, g) :: r)

/-- One page-generation request passed to the batch callback. -/
structure PageGenerateRequest where
  path : String
  data : PageData
deriving Repr, DecidableEq

/-- Argument of the batch callback: a single request or an array of them. -/
inductive GeneratorPages where
  | single (p : PageGenerateRequest)
  | list (ps : List PageGenerateRequest)
deriving Repr, DecidableEq

/-- Response object passed by a script to `resolve` (the source's
`GeneratorResponse`); each field is optional and processed only when
supplied. -/
structure GenResponse where
  cache : Option CacheData
  outData : Option JsVal
  siteFiles : Option (SMap JsVal)
  watchFiles : Option (List String)
  watchGlobs : Option (List String)
  globalData : Option PageData
deriving Repr, DecidableEq

/-- The empty response (every field absent). -/
def GenResponse.none : GenResponse :=
  { cache := Option.none, outData := Option.none, siteFiles := Option.none,
    watchFiles := Option.none, watchGlobs := Option.none, globalData := Option.none }

/-- JavaScript `Error` object as the engine observes it. -/
structure JsError where
  message : String
  stack : Option String
deriving Repr, DecidableEq

/-- Observable actions of a user generate script: the capability calls it
makes, in order, plus a synchronous throw.  A throw aborts the rest of the
script; the engine's behaviour depends only on this action trace. -/
inductive ScriptAct where
  | callGenerate (pages : GeneratorPages)
  | callResolve (resp : Option GenResponse)
  | callReject (err : JsError)
  | throwErr (err : JsError)
deriving Repr, DecidableEq

/-- External primitives the engine delegates to: the shared library's
`isRelative` containment test, the `path` module's `resolve`, `fs.existsSync`,
`JSON.stringify`, the wall clock, and the JavaScript interpretation of a
generate-script body as its capability-call trace. -/
structure Ext where
  isRelative : String → String → Bool
  resolve : String → String
  fsExists : String → Bool
  stringify : JsVal → String
  now : String
  nowMs : Int
  scriptSem : String → List ScriptAct

/-- Engine instance: the state bag plus the observable filesystem-effect
trace and console log. -/
structure Eng where
  st : TState
  effects : List FsEffect
  logs : List String
deriving Repr, DecidableEq

/-- Append a filesystem effect. -/
def Eng.emit (e : Eng) (eff : FsEffect) : Eng :=
  { e with effects := e.effects ++ [eff] }

/-- Append a console log line. -/
def Eng.addLog (e : Eng) (s : String) : Eng :=
  { e with logs := e.logs ++ [s] }

/-- Update the state bag. -/
def Eng.mapSt (e : Eng) (f : TState → TState) : Eng :=
  { e with st := f e.st }

/-- Model of `fspath.parse(s).dir` for slash-separated names: everything
before the last separator, `""` when there is none. -/
def parseDir (s : String) : String :=
  let parts := jsSplit s '/'
  if parts.length ≤ 1 then "" else joinSep "/" parts.dropLast

/-- Generic reverse-index insertion (`if (!t[key]) t[key] = {}; t[key][page]
= true`), shared by the path, glob and template index updates. -/
def depTreeAdd (t : DepTree) (key page : String) : DepTree :=
  let cur := (smapFind? t key).getD []
  smapSet t key (smapSet cur page true)

/-- Renderer environment: the content-store maps the renderer reads. -/
structure REnv where
  frontMatter : SMap PageData
  templates : SMap Tmpl
deriving Repr, DecidableEq

/-- Source `renderRecursive`'s wrapper-resolution loop: starting at the
included template, follow truthy `wrapper` front-matter references, pushing
each visited page and recording that the originally included template
depends on every wrapper in the chain, until a page without a wrapper (the
outermost template) is reached. -/
def wrapChainLoop (fm : SMap PageData) (current : String) :
    Nat → String → List String → DepTree → Except String (String × List String × DepTree)
  | 0, _, _, _ => .error "FUEL"
  | fuel + 1, wrapCheck, stack, dep =>
    let wv := match smapFind? fm wrapCheck with
      | some fmc => (smapFind? fmc "wrapper").getD .undef
      | none => .undef
    if wv.truthy then
      wrapChainLoop fm current fuel wv.toStr (wrapCheck :: stack)
        (markDependsOn dep current wv.toStr)
    else .ok (wrapCheck, stack, dep)

/-- Pending work item of the renderer: either a `renderRecursive` call
(an include request) or the continuation of a template body's parts. -/
inductive RTask where
  | callRec (parent : String) (ws : List String) (passed : PageData)
      (current : String) (incData : Option PageData)
  | runSeq (parent : String) (stack : List String) (rdata : PageData) (parts : List TPart)

/-- The wrapper-stack reference a render task holds. -/
def RTask.stackOf : RTask → List String
  | .callRec _ ws _ _ _ => ws
  | .runSeq _ stack _ _ => stack

/-- Combined renderer (source `renderRecursive` plus the interleaving of a
compiled template's parts): a `callRec` task on the `_body` marker pops the
shared wrapper stack (erroring when empty); on any other name it records a
dependency of `parent` on the included template, resolves its wrapper
chain, and renders the outermost template, leaving the caller's wrapper
stack untouched.  Render data is the layered merge of the passed data, the
rendered template's front matter, and data passed at the inclusion point.
A `runSeq` task renders parts in order, threading the shared wrapper stack
and dependency index through each include.  Returns the rendered text (or
the thrown error), the updated template dependency index, and the caller's
wrapper stack after any pops; fuel is a model artifact making the (source,
possibly divergent on wrapper cycles) recursion total. -/
def renderGo (env : REnv) : Nat → DepTree → RTask →
    Except String String × DepTree × List String
  | 0, dep, t => (.error "FUEL", dep, t.stackOf)
  | fuel + 1, dep, .callRec parent ws passed current incData =>
    if current = "_body" then
      match ws with
      | [] => (.error ("Wrapper " ++ parent ++ " was not wrapping anything"), dep, ws)
      | top :: rest =>
        let renderData := smapMerge (smapMerge passed ((smapFind? env.frontMatter top).getD []))
          (incData.getD [])
        match smapFind? env.templates top with
        | none =>
          (.error ("this.state.templates[" ++ top ++ "] is not a function"), dep, rest)
        | some parts => renderGo env fuel dep (.runSeq parent rest renderData parts)
    else
      let dep₁ := markDependsOn dep parent current
      match wrapChainLoop env.frontMatter current (fuel + 1) current [] dep₁ with
      | .error e => (.error e, dep₁, ws)
      | .ok (outer, stack, dep₂) =>
        let renderData := smapMerge (smapMerge passed ((smapFind? env.frontMatter outer).getD []))
          (incData.getD [])
        match smapFind? env.templates outer with
        | none => (.error ("this.state.templates[" ++ outer ++ "] is not a function"), dep₂, ws)
        | some parts =>
          let r := renderGo env fuel dep₂ (.runSeq parent stack renderData parts)
          (r.1, r.2.1, ws)
  | _ + 1, dep, .runSeq _ stack _ [] => (.ok "", dep, stack)
  | fuel + 1, dep, .runSeq parent stack rdata (.text s :: rest) =>
    let r := renderGo env fuel dep (.runSeq parent stack rdata rest)
    (r.1.map (fun h => s ++ h), r.2.1, r.2.2)
  | fuel + 1, dep, .runSeq parent stack rdata (.inc name d :: rest) =>
    match renderGo env fuel dep (.callRec parent stack rdata name d) with
    | (.error e, dep₁, stack₁) => (.error e, dep₁, stack₁)
    | (.ok h, dep₁, stack₁) =>
      let r := renderGo env fuel dep₁ (.runSeq parent stack₁ rdata rest)
      (r.1.map (fun h₂ => h ++ h₂), r.2.1, r.2.2)

/-- Source `renderRecursive` at its call interface. -/
def renderRec (env : REnv) (fuel : Nat) (dep : DepTree) (parent : String)
    (ws : List String) (passed : PageData) (current : String)
    (incData : Option PageData) : Except String String × DepTree × List String :=
  renderGo env fuel dep (.callRec parent ws passed current incData)

/-- Source `renderTemplate`'s catch block: count the error, log it, and
rethrow. -/
def renderTemplateFail (eng : Eng) (template path e : String) : Eng :=
  { eng with
    st := { eng.st with errorCount := eng.st.errorCount + 1 }
    logs := eng.logs ++
      ["Error rendering page: " ++ template ++ ", path: " ++ path, e] }

/-- Source `renderTemplate`: fix the requested path, render the template
recursively (recording dependencies), create the output directory when
missing, append the HTML ledger record, and write `index.html` through the
path-containment guard.  Returns the fixed path, or the thrown error after
counting it. -/
def renderTemplate (ext : Ext) (cfg : Config) (eng : Eng) (fuel : Nat)
    (template path₀ : String) (data : PageData) : Eng × Except String String :=
  let path := fixPath path₀
  let entryScriptName := getEntryScriptName path
  let inputVars : PageData :=
    [("pagePath", .str path), ("pageName", .str template),
     ("lastPath", .str entryScriptName),
     ("entryScript", .str ((if path = "/" then "" else path ++ "/") ++ entryScriptName ++ ".js"))]
  let renderData := smapMerge inputVars data
  let env : REnv := { frontMatter := eng.st.frontMatter, templates := eng.st.templates }
  let r := renderRec env fuel eng.st.templateDepTree template [] renderData template Option.none
  let eng := eng.mapSt (fun st => { st with templateDepTree := r.2.1 })
  match r.1 with
  | .error e => (renderTemplateFail eng template path e, .error e)
  | .ok html =>
    let writePath := "./" ++ cfg.outputDir ++ "/" ++ path
    let mk : Eng × Except String Unit :=
      if ¬ ext.fsExists writePath then
        match safeOutputCheckMkdir ext.isRelative cfg.outputDir writePath with
        | .error e => (eng, .error e)
        | .ok eff => (eng.emit eff, .ok ())
      else (eng, .ok ())
    match mk with
    | (eng₁, .error e) => (renderTemplateFail eng₁ template path e, .error e)
    | (eng₁, .ok _) =>
      let p := ext.resolve (writePath ++ "/index.html")
      let eng₂ := eng₁.mapSt (fun st =>
        { st with outputData := { st.outputData with
            html := st.outputData.html ++ [{ source := template, path := p, time := ext.now }] } })
      match safeOutputCheckWrite ext.isRelative cfg.outputDir p html with
      | .error e => (renderTemplateFail eng₂ template path e, .error e)
      | .ok eff => ((eng₂.emit eff).addLog ("Wrote: " ++ p), .ok path)

/-- Source `writeEntryScript`: create the output directory when missing,
append the entry-script ledger record, and write the composed script file
through the path-containment guard. -/
def writeEntryScript (ext : Ext) (cfg : Config) (eng : Eng)
    (template script path name : String) : Eng × Except String Unit :=
  let writePath := "./" ++ cfg.outputDir ++ "/" ++ path
  let mk : Eng × Except String Unit :=
    if ¬ ext.fsExists writePath then
      match safeOutputCheckMkdir ext.isRelative cfg.outputDir writePath with
      | .error e => (eng, .error e)
      | .ok eff => (eng.emit eff, .ok ())
    else (eng, .ok ())
  match mk with
  | (eng₁, .error e) => (eng₁, .error e)
  | (eng₁, .ok _) =>
    let p := ext.resolve (writePath ++ "/" ++ name)
    let eng₂ := eng₁.mapSt (fun st =>
      { st with outputData := { st.outputData with
          entry := st.outputData.entry ++ [{ source := template, path := p, time := ext.now }] } })
    match safeOutputCheckWrite ext.isRelative cfg.outputDir p script with
    | .error e => (eng₂, .error e)
    | .ok eff => ((eng₂.emit eff).addLog ("Wrote: " ++ p), .ok ())

/-- Source `processEntryScripts`'s wrapper walk: follow truthy `wrapper`
references from the page, prepending the entry script (when defined) of
each wrapper visited; reading the front matter of an unknown page throws,
as in the source. -/
def entryWrapperChain (fm : SMap PageData) (es : SMap String) :
    Nat → JsVal → List String → Except String (List String)
  | 0, _, _ => .error "FUEL"
  | fuel + 1, wrapperRef, acc =>
    if wrapperRef.truthy then
      match smapFind? fm wrapperRef.toStr with
      | Option.none =>
        .error "TypeError: Cannot read properties of undefined (reading 'wrapper')"
      | some fmr =>
        let wrapperPage := (smapFind? fmr "wrapper").getD .undef
        let acc₁ :=
          if wrapperPage.truthy then
            match smapFind? es wrapperPage.toStr with
            | some s => ("// entry script: " ++ wrapperPage.toStr ++ "\n" ++ s) :: acc
            | Option.none => acc
          else acc
        entryWrapperChain fm es fuel wrapperPage acc₁
    else .ok acc

/-- Source `processEntryScripts`: collect the page's own entry script and
every wrapper-chain entry script (outermost first), and when any exist
write the joined script once for the rendered path. -/
def processEntryScripts (ext : Ext) (cfg : Config) (eng : Eng) (fuel : Nat)
    (pageName outPath : String) : Eng × Except String Unit :=
  let base : List String :=
    match smapFind? eng.st.entryScripts pageName with
    | some s => ["// entry script: " ++ pageName ++ "\n" ++ s]
    | Option.none => []
  match entryWrapperChain eng.st.frontMatter eng.st.entryScripts fuel (.str pageName) base with
  | .error e => (eng, .error e)
  | .ok scripts =>
    if scripts.length ≠ 0 then
      let script := joinSep "\n" scripts
      let scriptName := getEntryScriptName outPath
      writeEntryScript ext cfg eng pageName script outPath (scriptName ++ ".js")
    else (eng, .ok ())

/-- Source `processGeneratorResponse`'s `siteFiles` loop: for each
requested output-relative file, create its directory when missing, append
the JSON ledger record, and write the string (or stringified) payload
through the path-containment guard; a guard failure aborts the rest of
the loop. -/
def writeSiteFiles (ext : Ext) (cfg : Config) (name : String) :
    Eng → List (String × JsVal) → Eng × Except String Unit
  | eng, [] => (eng, .ok ())
  | eng, (file, v) :: rest =>
    let p := ext.resolve ("./" ++ cfg.outputDir ++ "/" ++ file)
    let writePath := parseDir p
    let mk : Eng × Except String Unit :=
      if ¬ ext.fsExists writePath then
        match safeOutputCheckMkdir ext.isRelative cfg.outputDir writePath with
        | .error e => (eng, .error e)
        | .ok eff => (eng.emit eff, .ok ())
      else (eng, .ok ())
    match mk with
    | (eng₁, .error e) => (eng₁, .error e)
    | (eng₁, .ok _) =>
      let eng₂ := eng₁.mapSt (fun st =>
        { st with outputData := { st.outputData with
            json := st.outputData.json ++ [{ source := name, path := p, time := ext.now }] } })
      let writeData := match v with
        | .str s => s
        | other => ext.stringify other
      match safeOutputCheckWrite ext.isRelative cfg.outputDir p writeData with
      | .error e => (eng₂, .error e)
      | .ok eff => writeSiteFiles ext cfg name ((eng₂.emit eff).addLog ("Wrote: " ++ p)) rest

/-- Source `processGeneratorResponse`: apply a script's resolve payload to
the engine state — replace the page's cache group, record `outData`, write
`siteFiles`, and register `watchFiles` / `watchGlobs` dependency edges. -/
def processGeneratorResponse (ext : Ext) (cfg : Config) (eng : Eng)
    (resp : Option GenResponse) (name cacheName : String) : Eng × Except String Unit :=
  match resp with
  | Option.none => (eng, .ok ())
  | some r =>
    let eng₁ := match r.cache with
      | some c => eng.mapSt (fun st => { st with cache := smapSet st.cache cacheName c })
      | Option.none => eng
    let eng₂ := match r.outData with
      | some v => eng₁.mapSt (fun st =>
          { st with outputData := { st.outputData with
              outData := smapSet st.outputData.outData name v } })
      | Option.none => eng₁
    let sf : Eng × Except String Unit := match r.siteFiles with
      | some files => writeSiteFiles ext cfg name eng₂ files
      | Option.none => (eng₂, .ok ())
    match sf with
    | (eng₃, .error e) => (eng₃, .error e)
    | (eng₃, .ok _) =>
      let eng₄ := match r.watchFiles with
        | some files => eng₃.mapSt (fun st =>
            { st with pathDepTree :=
                files.foldl (fun t f => depTreeAdd t (ext.resolve f) name) st.pathDepTree })
        | Option.none => eng₃
      let eng₅ := match r.watchGlobs with
        | some globs => eng₄.mapSt (fun st =>
            { st with wildDepTree :=
                globs.foldl (fun t g => depTreeAdd t g name) st.wildDepTree })
        | Option.none => eng₄
      (eng₅, .ok ())

/-- Script-block markers of the content store. -/
def SCRIPT_GENERATE : String := "<script generate>"

/-- Marker opening a `generate-use` reference block. -/
def SCRIPT_GENERATE_USE : String := "<script generate-use:"

/-- Marker opening an entry-script block. -/
def SCRIPT_ENTRY : String := "<script entry>"

/-- Marker opening a lib-script block. -/
def SCRIPT_LIB : String := "<script lib>"

/-- Closing marker of every script block. -/
def END_SCRIPT : String := "</script>"

/-- Word characters of the `generate-use` reference pattern (`[\w-]`). -/
def isWordChar (c : Char) : Bool :=
  c.isAlphanum || c = '_' || c = '-'

/-- Model of the strict `generate-use` reference test
(`/^"([\w-]+(\/([\w-]+))+)">$/`): a quoted slash-delimited identifier with
at least two segments, returning the captured reference. -/
def parseGenerateUseRef (s : String) : Option String :=
  if strStarts s "\"" ∧ strEnds s "\">" then
    let ref := strDropRight (strDrop s 1) 2
    let segs := jsSplit ref '/'
    if 2 ≤ segs.length ∧ segs.all (fun seg => seg ≠ "" ∧ seg.toList.all isWordChar) then
      some ref
    else Option.none
  else Option.none

/-- Source `processScript`: dispatch on the script-block marker — store a
generate script, record (or reject and log) a `generate-use` reference,
store an entry script, or immediately write a lib file (directory creation
and write both behind the path-containment guard).  Returns whether the
block was consumed. -/
def processScript (ext : Ext) (cfg : Config) (eng : Eng) (source name : String) :
    Eng × Except String Bool :=
  if strStarts source SCRIPT_GENERATE then
    let stripped := strDropRight (strDrop source SCRIPT_GENERATE.length) END_SCRIPT.length
    (eng.mapSt (fun st => { st with generateScripts := smapSet st.generateScripts name stripped }),
     .ok true)
  else if strStarts source SCRIPT_GENERATE_USE then
    let stripped := strTrim (strDropRight (strDrop source SCRIPT_GENERATE_USE.length) END_SCRIPT.length)
    match parseGenerateUseRef stripped with
    | some dependency =>
      (eng.mapSt (fun st =>
        { st with
          generateScriptRefs := smapSet st.generateScriptRefs name dependency
          templateDepTree := markDependsOn st.templateDepTree name dependency }),
       .ok true)
    | Option.none =>
      (eng.addLog ("Generate-use script template in: '" ++ name ++ "' not specified correctly."),
       .ok true)
  else if strStarts source SCRIPT_ENTRY then
    let stripped := strDropRight (strDrop source SCRIPT_ENTRY.length) END_SCRIPT.length
    (eng.mapSt (fun st => { st with entryScripts := smapSet st.entryScripts name stripped }),
     .ok true)
  else if strStarts source SCRIPT_LIB then
    let stripped := strDropRight (strDrop source SCRIPT_LIB.length) END_SCRIPT.length
    let dir := parseDir name
    let mk : Eng × Except String Unit :=
      if ¬ ext.fsExists (cfg.outputDir ++ "/js" ++ "/" ++ dir) then
        match safeOutputCheckMkdir ext.isRelative cfg.outputDir
            (cfg.outputDir ++ "/js" ++ "/" ++ dir) with
        | .error e => (eng, .error e)
        | .ok eff => (eng.emit eff, .ok ())
      else (eng, .ok ())
    match mk with
    | (eng₁, .error e) => (eng₁, .error e)
    | (eng₁, .ok _) =>
      let p := ext.resolve (cfg.outputDir ++ "/js" ++ "/" ++ name ++ ".js")
      let eng₂ := eng₁.mapSt (fun st =>
        { st with outputData := { st.outputData with
            lib := st.outputData.lib ++ [{ source := name, path := p, time := ext.now }] } })
      match safeOutputCheckWrite ext.isRelative cfg.outputDir p stripped with
      | .error e => (eng₂, .error e)
      | .ok eff => ((eng₂.emit eff).addLog ("Wrote: " ++ p), .ok true)
  else (eng, .ok false)

/-- Echo loop of `chalkUpError`: log every line of the stored generate
script, highlighting the line named by the stack. -/
def echoScript (errorLine : Option Int) (scriptLines : List String) (e : Eng) : Eng :=
  ((List.range scriptLines.length).zip scriptLines).foldl
    (fun (e : Eng) p =>
      if errorLine = some (p.1 : Int) then e.addLog ("[error] " ++ p.2)
      else e.addLog p.2) e

/-- Line number named by the first stack line
(`Number(lines[0].split(":")[1]) - 1`; `none` is `NaN`). -/
def stackErrorLine (stack : String) : Option Int :=
  match jsSplit stack '\n' with
  | [] => Option.none
  | l₀ :: _ =>
    match (jsSplit l₀ ':').get? 1 with
    | Option.none => Option.none
    | some seg => (strToNum? seg).map (fun n => n - 1)

/-- Source `chalkUpError`: pretty-print a script failure — the page name,
the error message, and when a stack is present the whole stored generate
script with the line named by the stack highlighted.  The body is total,
so its internal catch (the only place the source increments the error
counter here) is never taken. -/
def chalkUpError (eng : Eng) (name : String) (err : JsError) : Eng :=
  let e₁ := eng.addLog ("Script Error: " ++ name)
  let e₂ := if err.message ≠ "" then e₁.addLog err.message else e₁
  match err.stack with
  | Option.none => e₂
  | some stack =>
    echoScript (stackErrorLine stack) (jsSplit (getGenerateScript e₂.st name) '\n') e₂

/-- A thrown `new Error(msg)` as the engine observes it. -/
def mkError (msg : String) : JsError :=
  { message := msg, stack := some ("Error: " ++ msg) }

/-- Per-run orchestrator locals of `generatePages`: the outstanding-render
counter and whether the run's promise has resolved. -/
structure Run where
  eng : Eng
  toRender : Int
  resolvedFlag : Bool
deriving Repr, DecidableEq

/-- Source `checkDone`: after a successful render compose the entry
scripts for the rendered path, then decrement the outstanding counter and
resolve the run when it reaches zero.  An entry-composition throw skips
the decrement and propagates, as in the source. -/
def checkDone (ext : Ext) (cfg : Config) (fuel : Nat) (r : Run)
    (pageName : String) (generated : Bool) (outPath : String) : Run × Except String Unit :=
  let step : Eng × Except String Unit :=
    if generated then processEntryScripts ext cfg r.eng fuel pageName outPath
    else (r.eng, .ok ())
  match step with
  | (eng, .error e) => ({ r with eng := eng }, .error e)
  | (eng, .ok _) =>
    let tr := r.toRender - 1
    ({ eng := eng, toRender := tr, resolvedFlag := r.resolvedFlag || tr = 0 }, .ok ())

/-- The try/catch settle pattern around a render (it appears verbatim in
both `generateSimple` and the batch loop): render, then settle the request
— a failure anywhere, including one thrown while composing entry scripts,
is caught and settled with a plain decrement. -/
def renderAndSettle (ext : Ext) (cfg : Config) (fuel : Nat) (r : Run)
    (pageName path : String) (data : PageData) : Run :=
  match renderTemplate ext cfg r.eng fuel pageName path data with
  | (eng, .ok fixedPath) =>
    match checkDone ext cfg fuel { r with eng := eng } pageName true fixedPath with
    | (r₁, .ok _) => r₁
    | (r₁, .error _) => (checkDone ext cfg fuel r₁ pageName false "").1
  | (eng, .error _) => (checkDone ext cfg fuel { r with eng := eng } pageName false "").1

/-- Source `generateSimple`: render a page that has no generate script (or
whose script requested no pages) at the given path and settle it. -/
def generateSimple (ext : Ext) (cfg : Config) (fuel : Nat) (r : Run)
    (pageName path : String) : Run :=
  let data := smapMerge [("global", JsVal.proxy pageName)]
    ((smapFind? r.eng.st.frontMatter pageName).getD [])
  renderAndSettle ext cfg fuel r pageName path data

/-- Source `generateError` (the script reject callback): pretty-print the
failure and settle the request.  Note it does not touch the error
counter. -/
def generateError (ext : Ext) (cfg : Config) (fuel : Nat) (g : ToGenerateData)
    (r : Run) (err : JsError) : Run :=
  let eng := chalkUpError r.eng g.name err
  (checkDone ext cfg fuel { r with eng := eng } g.name false "").1

/-- The `pages.forEach` loop of the batch callback: render each requested
page at the wildcard-substituted path, settling each (success or failure)
individually, and count the renders. -/
def renderBatchPages (ext : Ext) (cfg : Config) (fuel : Nat) (gname gtarget : String) :
    Run → Nat → List PageGenerateRequest → Run × Nat
  | r, rendered, [] => (r, rendered)
  | r, rendered, pg :: rest =>
    let data := smapMerge (smapMerge [("global", JsVal.proxy gname)] pg.data)
      ((smapFind? r.eng.st.frontMatter gname).getD [])
    let starReplacedPath := jsReplaceStar gtarget pg.path
    let rendered₁ := rendered + 1
    let r₁ := renderAndSettle ext cfg fuel r gname starReplacedPath data
    renderBatchPages ext cfg fuel gname gtarget r₁ rendered₁ rest

/-- Source inner `generatePages` (the batch callback handed to a generate
script): validate the wildcard count of the target — more than one
wildcard, or none, throws a validation error before any render — then
fan out the requested pages, growing the outstanding counter first. -/
def generateBatchCb (ext : Ext) (cfg : Config) (fuel : Nat) (g : ToGenerateData)
    (r : Run) (rendered : Nat) (resp : GeneratorPages) : (Run × Nat) × Except String Unit :=
  let r₀ := { r with eng := r.eng.addLog ("Generating batch pages for: " ++ g.name) }
  let pages := match resp with
    | .single p => [p]
    | .list ps => ps
  let pathStars := countStars g.generate
  if pathStars > 1 then
    ((r₀, rendered),
     .error ("Generate paths can only include a single path replacement *" ++ g.name))
  else if pathStars = 0 then
    ((r₀, rendered),
     .error ("Generate paths must include a path replacement * when generating 1 or more pages from data." ++ g.name))
  else if pages.length = 0 then ((r₀, rendered), .ok ())
  else
    let r₁ := { r₀ with toRender := r₀.toRender + pages.length }
    (renderBatchPages ext cfg fuel g.name g.generate r₁ rendered pages, .ok ())

/-- Source `generateDone` (the script resolve callback): when the script
rendered nothing and the target has no wildcard, auto-render the page once
at the literal target path; then apply the resolve payload and settle the
request.  A failure while applying the payload propagates into the
script's execution context. -/
def generateDone (ext : Ext) (cfg : Config) (fuel : Nat) (g : ToGenerateData)
    (r : Run) (rendered : Nat) (resp : Option GenResponse) : Run × Except String Unit :=
  let r₀ := { r with eng := r.eng.addLog ("Generator Resolved: " ++ g.name) }
  let r₁ :=
    if rendered = 0 then
      if countStars g.generate > 0 then r₀
      else
        let r' := { r₀ with toRender := r₀.toRender + 1 }
        generateSimple ext cfg fuel r' g.name g.generate
    else r₀
  match processGeneratorResponse ext cfg r₁.eng resp g.name (getCacheName g.name) with
  | (eng, .error e) => ({ r₁ with eng := eng }, .error e)
  | (eng, .ok _) =>
    ((checkDone ext cfg fuel { r₁ with eng := eng } g.name false "").1, .ok ())

/-- Execution of a generate script as its trace of capability calls: the
batch callback and resolve run the engine's handlers (their thrown errors
abort the rest of the script and surface as script exceptions); a reject
settles the request through `generateError` and the script continues; a
synchronous throw aborts the script. -/
def runScriptActs (ext : Ext) (cfg : Config) (fuel : Nat) (g : ToGenerateData) :
    Run → Nat → List ScriptAct → Run × Except JsError Unit
  | r, _, [] => (r, .ok ())
  | r, rendered, act :: rest =>
    match act with
    | .callGenerate pages =>
      match generateBatchCb ext cfg fuel g r rendered pages with
      | ((r₁, rendered₁), .ok _) => runScriptActs ext cfg fuel g r₁ rendered₁ rest
      | ((r₁, _), .error e) => (r₁, .error (mkError e))
    | .callResolve resp =>
      match generateDone ext cfg fuel g r rendered resp with
      | (r₁, .ok _) => runScriptActs ext cfg fuel g r₁ rendered rest
      | (r₁, .error e) => (r₁, .error (mkError e))
    | .callReject err =>
      runScriptActs ext cfg fuel g (generateError ext cfg fuel g r err) rendered rest
    | .throwErr err => (r, .error err)

/-- Cache-group initialisation before a script run
(`if (!cache[name]) cache[name] = {}`). -/
def ensureGroup (c : Cache) (cacheName : String) : Cache :=
  if ¬ smapHasKey c cacheName then smapSet c cacheName [] else c

/-- Processing of one queued generation request by the orchestrator:
dequeue it; when the page has an operative generate script, ensure its
cache group exists, run the expiry scan (whose invalid-date error is fatal
to the whole run), and execute the script — a synchronous script exception
is caught, counted, and settled via `generateError`; otherwise render the
page directly at its literal target. -/
def processOneRequest (ext : Ext) (cfg : Config) (fuel : Nat) (r : Run)
    (g : ToGenerateData) : Except String Run :=
  let rd := { r with eng := r.eng.mapSt (fun st =>
    { st with toGenerate := smapErase st.toGenerate g.name }) }
  let script := getGenerateScript rd.eng.st g.name
  if script ≠ "" then
    let rc := { rd with eng := rd.eng.mapSt (fun st =>
      { st with cache := ensureGroup st.cache (getCacheName g.name) }) }
    match expireCache ext.nowMs rc.eng.st.cache with
    | .error e => .error e
    | .ok cache₁ =>
      let re := { rc with eng := rc.eng.mapSt (fun st => { st with cache := cache₁ }) }
      match runScriptActs ext cfg fuel g re 0 (ext.scriptSem script) with
      | (r₁, .ok _) => .ok r₁
      | (r₁, .error err) =>
        let r₂ := { r₁ with eng := r₁.eng.mapSt (fun st =>
            { st with errorCount := st.errorCount + 1 }) }
        .ok (generateError ext cfg fuel g r₂ err)
  else if g.generate ≠ "" then
    .ok (generateSimple ext cfg fuel rd g.name g.generate)
  else .ok rd

/-- The fold of `generatePages` over the dequeued snapshot of requests. -/
def processRequests (ext : Ext) (cfg : Config) (fuel : Nat) :
    Run → List ToGenerateData → Except String Run
  | r, [] => .ok r
  | r, g :: rest =>
    match processOneRequest ext cfg fuel r g with
    | .error e => .error e
    | .ok r₁ => processRequests ext cfg fuel r₁ rest

/-- Source outer `generatePages`: snapshot the pending queue, initialise
the fan-out counter to its length, resolve immediately when empty, and
otherwise process every request in queue order.  An `expireCache` throw
escapes the promise executor (the run never resolves). -/
def generatePagesRun (ext : Ext) (cfg : Config) (fuel : Nat) (eng : Eng) :
    Except String Run :=
  let toGen := eng.st.toGenerate.map Prod.snd
  let r₀ : Run := { eng := eng, toRender := (toGen.length : Int), resolvedFlag := false }
  if toGen.length = 0 then
    .ok { r₀ with
      eng := r₀.eng.addLog "Nothing to do.  Will wait for changes."
      resolvedFlag := true }
  else processRequests ext cfg fuel r₀ toGen

/-! Concrete fixtures used by witnesses and counterexamples. -/

/-- Directory configuration of the test scenarios. -/
def cfgT : Config :=
  { inputDir := "in", dataDir := "data", outputDir := "out", cacheDir := "cache" }

/-- Benign external primitives used by the orchestration scenarios: the
containment test always passes, `resolve` is the identity, directories
already exist, and the clock is fixed. -/
def extT (sem : String → List ScriptAct) : Ext :=
  { isRelative := fun _ _ => true, resolve := id, fsExists := fun _ => true,
    stringify := fun _ => "json", now := "T", nowMs := 1000, scriptSem := sem }

/-- Engine with empty effect and log traces over a given state. -/
def engOf (st : TState) : Eng :=
  { st := st, effects := [], logs := [] }

/-- Wrapper-chain scenario of C8: page A wrapped by B wrapped by C, the
wrappers containing a body slot between literal text parts. -/
def stC8 : TState :=
  { TState.initial with
    frontMatter := [("A", [("wrapper", .str "B")]), ("B", [("wrapper", .str "C")]), ("C", [])]
    templates := [("A", [.text "abody"]),
                  ("B", [.text "b1", .inc "_body" Option.none, .text "b2"]),
                  ("C", [.text "c1", .inc "_body" Option.none, .text "c2"])] }

/-- Renderer environment of the wrapper-chain scenario. -/
def envC8 : REnv :=
  { frontMatter := stC8.frontMatter, templates := stC8.templates }

/-- Two-request scenario used for script-failure claims: page `p1` owns
generate script `S1`, page `p2` renders directly. -/
def stTwo : TState :=
  { TState.initial with
    frontMatter := [("p1", []), ("p2", [])]
    templates := [("p1", [.text "one"]), ("p2", [.text "two"])]
    generateScripts := [("p1", "S1")]
    toGenerate :=
      [("p1", { name := "p1", generate := "docs/a", triggeredBy := "", reason := .Modified }),
       ("p2", { name := "p2", generate := "docs/b", triggeredBy := "", reason := .Modified })] }

/-- Script behaviour: explicit reject with the given error. -/
def semRejectWith (e : JsError) : String → List ScriptAct :=
  fun _ => [.callReject e]

/-- Script behaviour: synchronous throw of the given error. -/
def semThrowWith (e : JsError) : String → List ScriptAct :=
  fun _ => [.throwErr e]

/-- The script error used in the failure scenarios. -/
def errBoom : JsError :=
  { message := "boom", stack := some "Error: boom" }

/-- Batch scenario state: page `pg` with generate script `S` and the given
pending generate target. -/
def stPg (target : String) : TState :=
  { TState.initial with
    frontMatter := [("pg", [])]
    templates := [("pg", [.text "X"])]
    generateScripts := [("pg", "S")]
    toGenerate :=
      [("pg", { name := "pg", generate := target, triggeredBy := "", reason := .Modified })] }

/-- Script behaviour: one batch request for the given path fragments, then
resolve. -/
def semBatchOf (frags : List String) : String → List ScriptAct :=
  fun _ =>
    [.callGenerate (.list (frags.map (fun f => { path := f, data := [] }))),
     .callResolve Option.none]

/-- Script behaviour: resolve with no response and no batch request. -/
def semResolveOnly : String → List ScriptAct :=
  fun _ => [.callResolve Option.none]

/-- Two-request wildcard-violation scenario: `pg` owns script `S` with the
given target, `p2` renders directly. -/
def stWild (target : String) : TState :=
  { TState.initial with
    frontMatter := [("pg", []), ("p2", [])]
    templates := [("pg", [.text "X"]), ("p2", [.text "two"])]
    generateScripts := [("pg", "S")]
    toGenerate :=
      [("pg", { name := "pg", generate := target, triggeredBy := "", reason := .Modified }),
       ("p2", { name := "p2", generate := "docs/b", triggeredBy := "", reason := .Modified })] }

/-- Deletion scenario of C2: page P has edges in every index, a pending
request, and a populated shared cache group. -/
def stDel : TState :=
  { TState.initial with
    templateDepTree := [("B", [("P", true)])]
    pathDepTree := [("/d/f", [("P", true), ("Q", true)])]
    wildDepTree := [("*.md", [("P", true)])]
    globalDeps := [("P", true)]
    frontMatter := [("P", [])]
    toGenerate := [("P", { name := "P", generate := "x", triggeredBy := "", reason := .Modified })]
    cache := [("shared", [("k", { expires := .undef, data := .str "v" })])] }

/-- State whose global store maps `k` to the falsy value `false`. -/
def stFalsy : TState :=
  { TState.initial with globalData := [("k", .bool false)] }

/-- State whose global store maps `k` to the truthy value `"v"`. -/
def stTruthy : TState :=
  { TState.initial with globalData := [("k", .str "v")] }

/-! Dictionary lemmas. -/

theorem smapFind?_erase_self {V : Type} (m : SMap V) (k : String) :
    smapFind? (smapErase m k) k = Option.none := by
  induction m with
  | nil => rfl
  | cons p rest ih =>
    by_cases h : p.1 = k
    · simpa [smapErase, List.filter_cons, h] using ih
    · simpa [smapErase, List.filter_cons, h, smapFind?] using ih

theorem smapErase_idem {V : Type} (m : SMap V) (k : String) :
    smapErase (smapErase m k) k = smapErase m k := by
  induction m with
  | nil => rfl
  | cons p rest ih =>
    by_cases h : p.1 = k
    · simp [smapErase, List.filter_cons, h, ih]
    · simp [smapErase, List.filter_cons, h, ih]

theorem smapHasKey_erase_self {V : Type} (m : SMap V) (k : String) :
    smapHasKey (smapErase m k) k = false := by
  simp [smapHasKey, smapFind?_erase_self]

/-- A dependency index with every edge set scrubbed of `p` (Boolean form,
so concrete instances evaluate). -/
def noDependent (t : DepTree) (p : String) : Bool :=
  t.all (fun e => !(smapHasKey e.2 p))

theorem noDependent_mapErase (t : DepTree) (p : String) :
    noDependent (t.map (fun e => (e.1, smapErase e.2 p))) p = true := by
  induction t with
  | nil => rfl
  | cons e rest ih =>
    simp only [noDependent, List.map_cons, List.all_cons, smapHasKey_erase_self] at ih ⊢
    simp only [ih, Bool.not_false, Bool.true_and]

theorem mapErase_idem (t : DepTree) (p : String) :
    (t.map (fun e => (e.1, smapErase e.2 p))).map (fun e => (e.1, smapErase e.2 p)) =
      t.map (fun e => (e.1, smapErase e.2 p)) := by
  induction t with
  | nil => rfl
  | cons e rest ih => simp [smapErase_idem, ih]

/-! Claim theorems. -/

/-- C10: `getCacheName` returns the constant `"shared"` for every page and
hook name, so all scripts read and write one shared cache group; and
`processDeletedTemplatePromise` deletes that entire shared group — after
deleting any single page, no `"shared"` group remains, so the cached
entries of every other page and of the hooks are removed with it. -/
theorem c10_shared_cache_group :
    (∀ name : String, getCacheName name = "shared") ∧
    (∀ (st : TState) (p : String),
      smapFind? (processDeletedTemplatePromise st p).cache "shared" = Option.none) := by
  refine ⟨fun _ => rfl, fun st p => ?_⟩
  show smapFind? (smapErase st.cache "shared") "shared" = Option.none
  exact smapFind?_erase_self st.cache "shared"

/-- C2 counterexample: in state `stDel`, page `P` is recorded in the
template-dependency index as a dependent of `B`; after
`processDeletedTemplatePromise stDel "P"` it still is — refuting the claim
that after removal `P` appears in no dependency index. -/
theorem c2_counterexample :
    ¬ noDependent (processDeletedTemplatePromise stDel "P").templateDepTree "P" = true := by
  decide

/-- C2 amended: after `processDeletedTemplatePromise st P`, `P` appears in
no path-dependency, glob-dependency or global-data edge set, is gone from
the pending-generation queue, the front matter, the stored scripts and the
per-page outData, and the shared cache group is deleted wholesale; running
the deletion a second time is a no-op.  (The template-dependency index is
not cleaned — the claim fails there, see the counterexample.) -/
theorem c2_amended (st : TState) (p : String) :
    noDependent (processDeletedTemplatePromise st p).pathDepTree p = true ∧
    noDependent (processDeletedTemplatePromise st p).wildDepTree p = true ∧
    smapFind? (processDeletedTemplatePromise st p).globalDeps p = Option.none ∧
    smapFind? (processDeletedTemplatePromise st p).toGenerate p = Option.none ∧
    smapFind? (processDeletedTemplatePromise st p).cache "shared" = Option.none ∧
    smapFind? (processDeletedTemplatePromise st p).frontMatter p = Option.none ∧
    smapFind? (processDeletedTemplatePromise st p).generateScripts p = Option.none ∧
    smapFind? (processDeletedTemplatePromise st p).generateScriptRefs p = Option.none ∧
    smapFind? (processDeletedTemplatePromise st p).entryScripts p = Option.none ∧
    smapFind? (processDeletedTemplatePromise st p).outputData.outData p = Option.none ∧
    processDeletedTemplatePromise (processDeletedTemplatePromise st p) p =
      processDeletedTemplatePromise st p := by
  refine ⟨noDependent_mapErase st.pathDepTree p, noDependent_mapErase st.wildDepTree p,
    smapFind?_erase_self st.globalDeps p, smapFind?_erase_self st.toGenerate p,
    smapFind?_erase_self st.cache "shared", smapFind?_erase_self st.frontMatter p,
    smapFind?_erase_self st.generateScripts p, smapFind?_erase_self st.generateScriptRefs p,
    smapFind?_erase_self st.entryScripts p, smapFind?_erase_self st.outputData.outData p, ?_⟩
  simp only [processDeletedTemplatePromise]
  simp [smapErase_idem, mapErase_idem]

/-- C3 counterexample: `"k"` is a key of the global data store (bound to
`false`), yet the instrumented accessor raises the undefined-element
failure — refuting "raises ... exactly when K is not a key of the global
data store". -/
theorem c3_counterexample :
    smapHasKey stFalsy.globalData "k" = true ∧
    globalProxyGet stFalsy "P" "k" =
      .error "Accessing undefined global data Element: k" := by
  exact ⟨rfl, rfl⟩

/-- C3 amended: the instrumented accessor raises the "undefined global
data Element" failure exactly when the stored value of `K` is falsy (in
particular when `K` is absent), leaving the state untouched (no edge is
added); when the stored value is truthy it records the page in the
global-data dependent set and returns the stored value. -/
theorem c3_amended (st : TState) (name key : String) :
    (((smapFind? st.globalData key).getD .undef).truthy = false →
      globalProxyGet st name key =
        .error ("Accessing undefined global data Element: " ++ key)) ∧
    (((smapFind? st.globalData key).getD .undef).truthy = true →
      globalProxyGet st name key =
        .ok ((smapFind? st.globalData key).getD .undef,
          { st with globalDeps := smapSet st.globalDeps name true })) := by
  unfold globalProxyGet
  constructor <;> intro h <;> simp [h]

/-- Witness for the amended C3: a falsy (absent) key errors, a truthy key
records the edge and returns the value. -/
theorem c3_amended_witness :
    globalProxyGet stFalsy "P" "missing" =
      .error "Accessing undefined global data Element: missing" ∧
    globalProxyGet stTruthy "P" "k" =
      .ok (.str "v", { stTruthy with globalDeps := smapSet stTruthy.globalDeps "P" true }) :=
  ⟨(c3_amended stFalsy "P" "missing").1 (by decide),
   (c3_amended stTruthy "P" "k").2 (by decide)⟩

/-- C8 counterexample: rendering page A (wrapper B, wrapper C) renders in
order C, B, A with A's content at the body slot, but the edge
B-depends-on-C is not recorded: after the render, C's dependent set does
not contain B — refuting that part of the claim. -/
theorem c8_counterexample :
    (renderRec envC8 50 [] "A" [] [] "A" Option.none).1 = .ok "c1b1abodyb2c2" ∧
    smapFind? ((smapFind? (renderRec envC8 50 [] "A" [] [] "A" Option.none).2.1 "C").getD [])
      "B" = Option.none := by
  exact ⟨rfl, rfl⟩

/-- C8 amended: for pages A (wrapper B), B (wrapper C), C (no wrapper),
rendering A resolves the wrapper chain and renders C, then B, then A's own
content at the body slot; the dependency edges recorded are A-depends-on-B
and A-depends-on-C (every wrapper in the chain lists the originally
rendered page A as its dependent, plus the self edge of A); the edge
B-depends-on-C is not recorded by rendering A. -/
theorem c8_amended :
    renderRec envC8 50 [] "A" [] [] "A" Option.none =
      (.ok "c1b1abodyb2c2",
       [("A", [("A", true)]), ("B", [("A", true)]), ("C", [("A", true)])],
       []) := by
  rfl

/-! Cache-expiry helpers for C9. -/

/-- An entry the expiry scan deletes: truthy `expires` coercing to a
number in the past. -/
def itemExpired (now : Int) (it : CacheItem) : Bool :=
  it.expires.truthy &&
    (match it.expires.toNum? with
     | some x => now > x
     | Option.none => false)

/-- An entry the expiry scan rejects fatally: truthy `expires` that is
`NaN` after numeric coercion. -/
def itemInvalid (it : CacheItem) : Bool :=
  it.expires.truthy && it.expires.toNum?.isNone

/-- A cache group without fatally-invalid expiry values. -/
def groupClean (g : CacheData) : Bool :=
  g.all (fun p => !(itemInvalid p.2))

/-- A cache without fatally-invalid expiry values in any group. -/
def cacheClean (c : Cache) : Bool :=
  c.all (fun g => groupClean g.2)

/-- The result of a successful expiry scan: every group keeps exactly its
non-expired entries. -/
def purgeCache (now : Int) (c : Cache) : Cache :=
  c.map (fun g => (g.1, g.2.filter (fun p => !(itemExpired now p.2))))

theorem expireItems_clean (now : Int) (nm : String) (items : List (String × CacheItem))
    (h : items.all (fun p => !(itemInvalid p.2)) = true) :
    expireItems now nm items = .ok (items.filter (fun p => !(itemExpired now p.2))) := by
  induction items with
  | nil => rfl
  | cons p rest ih =>
    simp only [List.all_cons, Bool.and_eq_true] at h
    have ihr := ih h.2
    by_cases ht : p.2.expires.truthy
    · cases hn : p.2.expires.toNum? with
      | none =>
        exfalso
        simp [itemInvalid, ht, hn] at h
      | some x =>
        by_cases hx : now > x
        · simp [expireItems, ht, hn, hx, ihr, List.filter_cons, itemExpired, Except.map]
        · simp [expireItems, ht, hn, hx, ihr, List.filter_cons, itemExpired, Except.map]
    · simp [expireItems, ht, ihr, List.filter_cons, itemExpired, Except.map]

theorem expireItems_invalid (now : Int) (nm : String) (items : List (String × CacheItem))
    (h : items.all (fun p => !(itemInvalid p.2)) = false) :
    ∃ e, expireItems now nm items = .error e := by
  induction items with
  | nil => simp at h
  | cons p rest ih =>
    by_cases hp : itemInvalid p.2
    · simp only [itemInvalid, Bool.and_eq_true, Option.isNone_iff_eq_none] at hp
      refine ⟨nm ++ " cache item " ++ p.1 ++ " expires date is invalid", ?_⟩
      simp [expireItems, hp.1, hp.2]
    · have hr : rest.all (fun p => !(itemInvalid p.2)) = false := by
        simp only [List.all_cons] at h
        simp only [Bool.and_eq_false_iff] at h
        rcases h with h | h
        · simp [hp] at h
        · exact h
      obtain ⟨e, he⟩ := ih hr
      by_cases ht : p.2.expires.truthy
      · cases hn : p.2.expires.toNum? with
        | none =>
          exfalso
          simp [itemInvalid, ht, Option.isNone_iff_eq_none, hn] at hp
        | some x =>
          by_cases hx : now > x
          · exact ⟨e, by simp [expireItems, ht, hn, hx, he]⟩
          · exact ⟨e, by simp [expireItems, ht, hn, hx, he, Except.map]⟩
      · exact ⟨e, by simp [expireItems, ht, he, Except.map]⟩

theorem expireCache_clean (now : Int) (c : Cache) (h : cacheClean c = true) :
    expireCache now c = .ok (purgeCache now c) := by
  induction c with
  | nil => rfl
  | cons g rest ih =>
    simp only [cacheClean, List.all_cons, Bool.and_eq_true] at h
    have hg := expireItems_clean now g.1 g.2 h.1
    have ihr := ih h.2
    simp [expireCache, hg, ihr, purgeCache, Except.bind]

theorem expireCache_invalid (now : Int) (c : Cache) (h : cacheClean c = false) :
    ∃ e, expireCache now c = .error e := by
  induction c with
  | nil => simp [cacheClean] at h
  | cons g rest ih =>
    by_cases hg : groupClean g.2
    · have hr : cacheClean rest = false := by
        simp only [cacheClean, List.all_cons, Bool.and_eq_false_iff] at h
        rcases h with h | h
        · exact absurd h (by simp [hg])
        · exact h
      obtain ⟨e, he⟩ := ih hr
      have hgc := expireItems_clean now g.1 g.2 hg
      exact ⟨e, by simp [expireCache, hgc, he, Except.bind]⟩
    · obtain ⟨e, he⟩ := expireItems_invalid now g.1 g.2 (by simpa [groupClean] using hg)
      exact ⟨e, by simp [expireCache, he, Except.bind]⟩

/-- Invalid-expiry scenario state: page `pg` owns script `S`, and the
shared cache holds an entry whose `expires` is the non-numeric string
`"abc"`. -/
def stInvalid : TState :=
  { stPg "x" with
    cache := [("shared", [("bad", { expires := .str "abc", data := .undef })])] }

/-- Past-expiry scenario state: the shared cache holds one entry expired
at timestamp 5 (the test clock is 1000). -/
def stPast : TState :=
  { stPg "x" with
    cache := [("shared", [("old", { expires := .num 5, data := .str "d" })])] }

/-- C9 counterexample: at clock 1000 the entry `it` has `expires` 0 — a
timestamp in the past — yet the expiry scan leaves the whole cache
unchanged, because the source's `if (expires)` treats the falsy 0 as "no
expiry"; the entry is therefore not absent before the next script run,
refuting the claim. -/
theorem c9_counterexample :
    (0 : Int) < 1000 ∧
    expireCache 1000 [("shared", [("it", { expires := .num 0, data := .str "d" })])] =
      .ok [("shared", [("it", { expires := .num 0, data := .str "d" })])] := by
  exact ⟨by decide, rfl⟩

/-- C9 amended: the expiry scan — run by the orchestrator after dequeuing
a scripted request and before executing its script — deletes exactly the
entries whose `expires` is truthy, numeric and in the past (a falsy
`expires` such as 0, `NaN` or `""` means "no expiry" and is never deleted
and never an error); a truthy non-numeric `expires` makes the scan throw,
which aborts the whole `generatePages` run; when the scan succeeds, the
script executes against the purged cache. -/
theorem c9_amended :
    (∀ (now : Int) (c : Cache), cacheClean c = true →
      expireCache now c = .ok (purgeCache now c)) ∧
    (∀ (now : Int) (c : Cache), cacheClean c = false →
      ∃ e, expireCache now c = .error e) ∧
    (∀ (ext : Ext) (cfg : Config) (fuel : Nat) (r : Run) (g : ToGenerateData) (e : String),
      getGenerateScript r.eng.st g.name ≠ "" →
      expireCache ext.nowMs (ensureGroup r.eng.st.cache "shared") = .error e →
      processOneRequest ext cfg fuel r g = .error e) ∧
    (∀ (ext : Ext) (cfg : Config) (fuel : Nat) (r : Run) (g : ToGenerateData) (c₁ : Cache),
      getGenerateScript r.eng.st g.name ≠ "" →
      expireCache ext.nowMs (ensureGroup r.eng.st.cache "shared") = .ok c₁ →
      ext.scriptSem (getGenerateScript r.eng.st g.name) = [] →
      processOneRequest ext cfg fuel r g =
        .ok { r with eng := { r.eng with st := { r.eng.st with
          toGenerate := smapErase r.eng.st.toGenerate g.name, cache := c₁ } } }) := by
  refine ⟨expireCache_clean, expireCache_invalid, ?_, ?_⟩
  · intro ext cfg fuel r g e hs he
    have hd : getGenerateScript
        { r.eng.st with toGenerate := smapErase r.eng.st.toGenerate g.name } g.name =
        getGenerateScript r.eng.st g.name := rfl
    simp only [processOneRequest, Eng.mapSt, getCacheName, hd]
    simp [hs, he]
  · intro ext cfg fuel r g c₁ hs he hacts
    have hd : getGenerateScript
        { r.eng.st with toGenerate := smapErase r.eng.st.toGenerate g.name } g.name =
        getGenerateScript r.eng.st g.name := rfl
    simp only [processOneRequest, Eng.mapSt, getCacheName, hd]
    simp [hs, he, hacts, runScriptActs]

/-! Script-failure lemmas for C4. -/

theorem echoFold_preserves (el : Option Int) (l : List (Nat × String)) :
    ∀ e : Eng,
      (l.foldl (fun (e : Eng) p =>
        if el = some (p.1 : Int) then e.addLog ("[error] " ++ p.2) else e.addLog p.2) e).st = e.st ∧
      (l.foldl (fun (e : Eng) p =>
        if el = some (p.1 : Int) then e.addLog ("[error] " ++ p.2) else e.addLog p.2) e).effects
        = e.effects := by
  induction l with
  | nil => exact fun e => ⟨rfl, rfl⟩
  | cons p rest ih =>
    intro e
    simp only [List.foldl_cons]
    constructor
    · rw [(ih _).1]
      split <;> rfl
    · rw [(ih _).2]
      split <;> rfl

theorem echoScript_preserves (el : Option Int) (lines : List String) (e : Eng) :
    (echoScript el lines e).st = e.st ∧ (echoScript el lines e).effects = e.effects := by
  unfold echoScript
  exact echoFold_preserves el _ e

/-- The script-failure pretty-printer only appends log lines: state and
filesystem effects are untouched (in particular the error counter — the
source's increment sits in a catch block whose try body is total). -/
theorem chalkUpError_preserves (eng : Eng) (name : String) (err : JsError) :
    (chalkUpError eng name err).st = eng.st ∧
    (chalkUpError eng name err).effects = eng.effects := by
  have h₂ : ∀ e₁ : Eng,
      ((if err.message ≠ "" then e₁.addLog err.message else e₁).st = e₁.st ∧
       (if err.message ≠ "" then e₁.addLog err.message else e₁).effects = e₁.effects) := by
    intro e₁
    constructor <;> (split <;> rfl)
  unfold chalkUpError
  cases hstk : err.stack with
  | none => exact ⟨(h₂ _).1, (h₂ _).2⟩
  | some stack =>
    exact ⟨(echoScript_preserves _ _ _).1.trans (h₂ _).1,
           (echoScript_preserves _ _ _).2.trans (h₂ _).2⟩

/-- Shape of the reject callback: pretty-print, then settle the request
(decrement, possibly resolve); no other field changes. -/
theorem generateError_shape (ext : Ext) (cfg : Config) (fuel : Nat)
    (g : ToGenerateData) (r : Run) (err : JsError) :
    generateError ext cfg fuel g r err =
      { eng := chalkUpError r.eng g.name err,
        toRender := r.toRender - 1,
        resolvedFlag := r.resolvedFlag || (r.toRender - 1 = 0) } := rfl

/-- Request-processing shape for a scripted request whose expiry scan
succeeds: the request is dequeued, the shared group ensured and purged,
and the script's action trace is executed — an ok trace yields its run, a
thrown trace counts one error and settles through `generateError`. -/
theorem processOneRequest_script (ext : Ext) (cfg : Config) (fuel : Nat)
    (r : Run) (g : ToGenerateData) (c₁ : Cache)
    (hs : getGenerateScript r.eng.st g.name ≠ "")
    (he : expireCache ext.nowMs (ensureGroup r.eng.st.cache "shared") = .ok c₁) :
    processOneRequest ext cfg fuel r g =
      (match runScriptActs ext cfg fuel g
          { r with eng := { r.eng with st := { r.eng.st with
              toGenerate := smapErase r.eng.st.toGenerate g.name, cache := c₁ } } }
          0 (ext.scriptSem (getGenerateScript r.eng.st g.name)) with
       | (r₁, .ok _) => .ok r₁
       | (r₁, .error err) => .ok (generateError ext cfg fuel g
           { r₁ with eng := r₁.eng.mapSt (fun st =>
               { st with errorCount := st.errorCount + 1 }) } err)) := by
  have hd : getGenerateScript
      { r.eng.st with toGenerate := smapErase r.eng.st.toGenerate g.name } g.name =
      getGenerateScript r.eng.st g.name := rfl
  simp only [processOneRequest, Eng.mapSt, getCacheName, hd]
  simp [hs, he]

/-- C4 counterexample: page `p1`'s generate script signals failure by an
explicit reject; the failure is caught and the run completes (the second
request still renders), but the run's error counter is NOT incremented —
refuting the claim that every reject increments it. -/
theorem c4_counterexample :
    (generatePagesRun (extT (semRejectWith errBoom)) cfgT 50 (engOf stTwo)).map
      (fun r => (r.eng.st.errorCount, r.resolvedFlag, r.eng.st.outputData.html.length)) =
      .ok (0, true, 1) := by
  rfl

/-- C4 amended: a generate-script failure is caught rather than
propagated, the failing script's source is echoed with the stack-named
line highlighted, and the other queued requests of the run still complete;
the error counter is incremented by one for a synchronously thrown error
(the `vm` catch), but an explicit reject settles the request without
touching the counter.  Parts: (1) reject — any state, any error: no
counter change, no new outputs or filesystem effects, request settled;
(2) synchronous throw — counter incremented by exactly one, request
settled; (3) the concrete two-request runs: the batch completes, the
second page is still written, the script source line `S1` is logged, and
the counter ends at 1 for a throw and 0 for a reject. -/
theorem c4_amended :
    (∀ (ext : Ext) (cfg : Config) (fuel : Nat) (r : Run) (g : ToGenerateData)
        (err : JsError) (c₁ : Cache),
      getGenerateScript r.eng.st g.name ≠ "" →
      expireCache ext.nowMs (ensureGroup r.eng.st.cache "shared") = .ok c₁ →
      ext.scriptSem (getGenerateScript r.eng.st g.name) = [.callReject err] →
      ∃ r₁, processOneRequest ext cfg fuel r g = .ok r₁ ∧
        r₁.eng.st.errorCount = r.eng.st.errorCount ∧
        r₁.eng.st.outputData = r.eng.st.outputData ∧
        r₁.eng.effects = r.eng.effects ∧
        r₁.toRender = r.toRender - 1 ∧
        r₁.resolvedFlag = (r.resolvedFlag || (r.toRender - 1 = 0))) ∧
    (∀ (ext : Ext) (cfg : Config) (fuel : Nat) (r : Run) (g : ToGenerateData)
        (err : JsError) (c₁ : Cache),
      getGenerateScript r.eng.st g.name ≠ "" →
      expireCache ext.nowMs (ensureGroup r.eng.st.cache "shared") = .ok c₁ →
      ext.scriptSem (getGenerateScript r.eng.st g.name) = [.throwErr err] →
      ∃ r₁, processOneRequest ext cfg fuel r g = .ok r₁ ∧
        r₁.eng.st.errorCount = r.eng.st.errorCount + 1 ∧
        r₁.eng.st.outputData = r.eng.st.outputData ∧
        r₁.eng.effects = r.eng.effects ∧
        r₁.toRender = r.toRender - 1 ∧
        r₁.resolvedFlag = (r.resolvedFlag || (r.toRender - 1 = 0))) ∧
    ((generatePagesRun (extT (semThrowWith errBoom)) cfgT 50 (engOf stTwo)).map
      (fun r => (r.eng.st.errorCount, r.resolvedFlag, r.eng.st.outputData.html,
                 r.eng.logs.contains "S1")) =
      .ok (1, true, [{ source := "p2", path := "./out/docs/b/index.html", time := "T" }],
           true)) ∧
    ((generatePagesRun (extT (semRejectWith errBoom)) cfgT 50 (engOf stTwo)).map
      (fun r => (r.eng.st.errorCount, r.resolvedFlag, r.eng.st.outputData.html,
                 r.eng.logs.contains "S1")) =
      .ok (0, true, [{ source := "p2", path := "./out/docs/b/index.html", time := "T" }],
           true)) := by
  refine ⟨?_, ?_, by rfl, by rfl⟩
  · intro ext cfg fuel r g err c₁ hs he hacts
    rw [processOneRequest_script ext cfg fuel r g c₁ hs he, hacts]
    refine ⟨_, rfl, ?_, ?_, ?_, ?_, ?_⟩ <;>
      simp only [generateError_shape, Eng.mapSt,
        (chalkUpError_preserves _ g.name err).1, (chalkUpError_preserves _ g.name err).2]
  · intro ext cfg fuel r g err c₁ hs he hacts
    rw [processOneRequest_script ext cfg fuel r g c₁ hs he, hacts]
    refine ⟨_, rfl, ?_, ?_, ?_, ?_, ?_⟩ <;>
      simp only [generateError_shape, Eng.mapSt,
        (chalkUpError_preserves _ g.name err).1, (chalkUpError_preserves _ g.name err).2]

/-- Witness for the amended C4: the general reject and throw parts applied
to the concrete two-request state. -/
theorem c4_amended_witness :
    (∃ r₁, processOneRequest (extT (semRejectWith errBoom)) cfgT 50
        { eng := engOf stTwo, toRender := 2, resolvedFlag := false }
        { name := "p1", generate := "docs/a", triggeredBy := "", reason := .Modified } =
          .ok r₁ ∧
      r₁.eng.st.errorCount = (engOf stTwo).st.errorCount ∧
      r₁.eng.st.outputData = (engOf stTwo).st.outputData ∧
      r₁.eng.effects = (engOf stTwo).effects ∧
      r₁.toRender = (2 : Int) - 1 ∧
      r₁.resolvedFlag = (false || ((2 : Int) - 1 = 0))) ∧
    (∃ r₁, processOneRequest (extT (semThrowWith errBoom)) cfgT 50
        { eng := engOf stTwo, toRender := 2, resolvedFlag := false }
        { name := "p1", generate := "docs/a", triggeredBy := "", reason := .Modified } =
          .ok r₁ ∧
      r₁.eng.st.errorCount = (engOf stTwo).st.errorCount + 1 ∧
      r₁.eng.st.outputData = (engOf stTwo).st.outputData ∧
      r₁.eng.effects = (engOf stTwo).effects ∧
      r₁.toRender = (2 : Int) - 1 ∧
      r₁.resolvedFlag = (false || ((2 : Int) - 1 = 0))) :=
  ⟨c4_amended.1 (extT (semRejectWith errBoom)) cfgT 50 _ _ errBoom [("shared", [])]
      (by decide) (by rfl) (by rfl),
   c4_amended.2.1 (extT (semThrowWith errBoom)) cfgT 50 _ _ errBoom [("shared", [])]
      (by decide) (by rfl) (by rfl)⟩

/-- C6: wildcard-count validation.  (1) Any batch request against a target
with more than one wildcard throws the single-replacement validation error
before any render: the returned run is the input with only the batch log
line appended (no outputs, no counter growth).  (2) Likewise any batch
request against a zero-wildcard target throws the must-include-replacement
validation error.  (3) End to end, with target `x/*/y/*` and a non-empty
batch: the failing request yields zero rendered outputs and exactly one
counted error, while the other queued request still renders and the run
resolves. -/
theorem c6_wildcard_validation :
    (∀ (ext : Ext) (cfg : Config) (fuel : Nat) (g : ToGenerateData) (r : Run)
        (rendered : Nat) (resp : GeneratorPages),
      1 < countStars g.generate →
      generateBatchCb ext cfg fuel g r rendered resp =
        (({ r with eng := r.eng.addLog ("Generating batch pages for: " ++ g.name) }, rendered),
         .error ("Generate paths can only include a single path replacement *" ++ g.name))) ∧
    (∀ (ext : Ext) (cfg : Config) (fuel : Nat) (g : ToGenerateData) (r : Run)
        (rendered : Nat) (resp : GeneratorPages),
      countStars g.generate = 0 →
      generateBatchCb ext cfg fuel g r rendered resp =
        (({ r with eng := r.eng.addLog ("Generating batch pages for: " ++ g.name) }, rendered),
         .error ("Generate paths must include a path replacement * when generating 1 or more pages from data."
           ++ g.name))) ∧
    ((generatePagesRun (extT (semBatchOf ["a"])) cfgT 50 (engOf (stWild "x/*/y/*"))).map
      (fun r => (r.eng.st.errorCount, r.resolvedFlag, r.eng.st.outputData.html,
                 r.eng.effects)) =
      .ok (1, true,
        [{ source := "p2", path := "./out/docs/b/index.html", time := "T" }],
        [.write "./out/docs/b/index.html" "two"])) := by
  refine ⟨?_, ?_, by rfl⟩
  · intro ext cfg fuel g r rendered resp h
    have h0 : ¬ countStars g.generate = 0 := by omega
    simp only [generateBatchCb]
    simp [h, h0]
  · intro ext cfg fuel g r rendered resp h
    simp only [generateBatchCb]
    simp [h]

/-- Witness for C6: both validation branches applied at a concrete state
(two-wildcard target, zero-wildcard target). -/
theorem c6_wildcard_validation_witness :
    generateBatchCb (extT (semBatchOf ["a"])) cfgT 50
      { name := "pg", generate := "x/*/y/*", triggeredBy := "", reason := .Modified }
      { eng := engOf (stWild "x/*/y/*"), toRender := 2, resolvedFlag := false } 0
      (.list [{ path := "a", data := [] }]) =
      (({ eng := (engOf (stWild "x/*/y/*")).addLog "Generating batch pages for: pg",
          toRender := 2, resolvedFlag := false }, 0),
       .error "Generate paths can only include a single path replacement *pg") ∧
    generateBatchCb (extT (semBatchOf ["a"])) cfgT 50
      { name := "pg", generate := "docs", triggeredBy := "", reason := .Modified }
      { eng := engOf (stWild "docs"), toRender := 2, resolvedFlag := false } 0
      (.list [{ path := "a", data := [] }]) =
      (({ eng := (engOf (stWild "docs")).addLog "Generating batch pages for: pg",
          toRender := 2, resolvedFlag := false }, 0),
       .error "Generate paths must include a path replacement * when generating 1 or more pages from data.pg") :=
  ⟨c6_wildcard_validation.1 _ _ 50 _ _ 0 _ (by decide),
   c6_wildcard_validation.2.1 _ _ 50 _ _ 0 _ (by decide)⟩

/-! Rendering lemmas for the one-page `pg` environment (used by C5 and
C7): page `pg` has empty front matter, the compiled template `X`, and no
entry scripts. -/

/-- Environment facts the `pg` scenario lemmas carry. -/
def pgEnvOk (e : Eng) : Prop :=
  e.st.frontMatter = [("pg", [])] ∧ e.st.templates = [("pg", [.text "X"])] ∧
    e.st.entryScripts = []

theorem renderRec_pgX (dep : DepTree) (rdata : PageData) :
    renderRec { frontMatter := [("pg", [])], templates := [("pg", [.text "X"])] }
      50 dep "pg" [] rdata "pg" Option.none =
      (.ok "X", markDependsOn dep "pg" "pg", []) := by
  rfl

/-- Rendering page `pg` at any fix-point path of `fixPath` writes exactly
one `index.html` under the output root, appends one HTML ledger record,
adds the self dependency edge, and succeeds with the path. -/
theorem renderTemplate_pg (sem : String → List ScriptAct) (eng : Eng) (path : String)
    (data : PageData) (henv : pgEnvOk eng) (hfix : fixPath path = path) :
    renderTemplate (extT sem) cfgT eng 50 "pg" path data =
      ({ eng with
          st := { eng.st with
            templateDepTree := markDependsOn eng.st.templateDepTree "pg" "pg"
            outputData := { eng.st.outputData with
              html := eng.st.outputData.html ++
                [{ source := "pg", path := "./" ++ "out" ++ "/" ++ path ++ "/index.html",
                   time := "T" }] } }
          effects := eng.effects ++ [.write ("./" ++ "out" ++ "/" ++ path ++ "/index.html") "X"]
          logs := eng.logs ++ ["Wrote: " ++ ("./" ++ "out" ++ "/" ++ path ++ "/index.html")] },
       .ok path) := by
  obtain ⟨hfm, ht, _⟩ := henv
  simp only [renderTemplate, extT, cfgT, id, hfix, hfm, ht, renderRec_pgX, Eng.mapSt,
    Eng.emit, Eng.addLog, safeOutputCheckWrite, safeOutputCheckMkdir]
  simp

/-- Page `pg` has no entry script and no wrapper, so entry-script
composition writes nothing. -/
theorem entryWrapperChain_pg (es : SMap String) (acc : List String) :
    entryWrapperChain [("pg", [])] es 50 (.str "pg") acc = .ok acc := by
  rfl

theorem processEntryScripts_pg (sem : String → List ScriptAct) (eng : Eng)
    (outPath : String) (henv : pgEnvOk eng) :
    processEntryScripts (extT sem) cfgT eng 50 "pg" outPath = (eng, .ok ()) := by
  obtain ⟨hfm, _, hes⟩ := henv
  simp only [processEntryScripts, hfm, hes]
  rfl

/-- Settling a successfully rendered `pg` page: entry composition is a
no-op, the outstanding counter decrements, the run resolves at zero. -/
theorem checkDone_pg (sem : String → List ScriptAct) (r : Run) (outPath : String)
    (henv : pgEnvOk r.eng) :
    checkDone (extT sem) cfgT 50 r "pg" true outPath =
      ({ eng := r.eng, toRender := r.toRender - 1,
         resolvedFlag := r.resolvedFlag || (r.toRender - 1 = 0) }, .ok ()) := by
  simp only [checkDone, if_true]
  rw [processEntryScripts_pg sem r.eng outPath henv]

/-- The run after one successful render-and-settle of `pg` at `path`: one
ledger record and write effect appended, the self dependency edge added,
the outstanding counter decremented. -/
def settledRun (r : Run) (path : String) : Run :=
  { eng := { r.eng with
      st := { r.eng.st with
        templateDepTree := markDependsOn r.eng.st.templateDepTree "pg" "pg"
        outputData := { r.eng.st.outputData with
          html := r.eng.st.outputData.html ++
            [{ source := "pg", path := "./" ++ "out" ++ "/" ++ path ++ "/index.html",
               time := "T" }] } }
      effects := r.eng.effects ++ [.write ("./" ++ "out" ++ "/" ++ path ++ "/index.html") "X"]
      logs := r.eng.logs ++ ["Wrote: " ++ ("./" ++ "out" ++ "/" ++ path ++ "/index.html")] },
    toRender := r.toRender - 1,
    resolvedFlag := r.resolvedFlag || (r.toRender - 1 = 0) }

/-- Rendering and settling `pg` (any data): one output at the requested
path, one settled request, a self dependency edge; no other change. -/
theorem renderAndSettle_pg (sem : String → List ScriptAct) (r : Run) (path : String)
    (data : PageData) (henv : pgEnvOk r.eng) (hfix : fixPath path = path) :
    renderAndSettle (extT sem) cfgT 50 r "pg" path data = settledRun r path := by
  unfold settledRun
  obtain ⟨hfm, ht, hes⟩ := henv
  simp only [renderAndSettle]
  rw [renderTemplate_pg sem r.eng path data ⟨hfm, ht, hes⟩ hfix]
  simp only [checkDone, processEntryScripts, hes, hfm, entryWrapperChain_pg, smapFind?]
  simp

/-- Direct render of `pg` by `generateSimple`. -/
theorem generateSimple_pg (sem : String → List ScriptAct) (r : Run) (path : String)
    (henv : pgEnvOk r.eng) (hfix : fixPath path = path) :
    generateSimple (extT sem) cfgT 50 r "pg" path = settledRun r path := by
  simp only [generateSimple]
  exact renderAndSettle_pg sem r path _ henv hfix

/-- C7: zero-wildcard single render.  (1) Generally: when a generate
script resolves without ever calling the batch callback (`rendered = 0`,
response `none`) and the target has no wildcard, the resolve handler
auto-renders the page exactly once at the literal target path — exactly
one HTML ledger record and one guarded write are appended — and settles
both the fanned-out render and the request itself.  (2) End to end: the
single-request run with target `docs/page` produces exactly one output at
`docs/page/index.html` under the output root and resolves without
errors. -/
theorem c7_zero_wildcard :
    (∀ (sem : String → List ScriptAct) (r : Run) (g : ToGenerateData),
      g.name = "pg" → countStars g.generate = 0 → fixPath g.generate = g.generate →
      pgEnvOk r.eng →
      generateDone (extT sem) cfgT 50 g r 0 Option.none =
        ({ eng := { r.eng with
              st := { r.eng.st with
                templateDepTree := markDependsOn r.eng.st.templateDepTree "pg" "pg",
                outputData := { r.eng.st.outputData with
                  html := r.eng.st.outputData.html ++
                    [{ source := "pg",
                       path := "./" ++ "out" ++ "/" ++ g.generate ++ "/index.html",
                       time := "T" }] } },
              effects := r.eng.effects ++
                [.write ("./" ++ "out" ++ "/" ++ g.generate ++ "/index.html") "X"],
              logs := (r.eng.logs ++ ["Generator Resolved: pg"]) ++
                ["Wrote: " ++ ("./" ++ "out" ++ "/" ++ g.generate ++ "/index.html")] },
           toRender := r.toRender + 1 - 1 - 1,
           resolvedFlag := (r.resolvedFlag || (r.toRender + 1 - 1 = 0)) ||
             (r.toRender + 1 - 1 - 1 = 0) }, .ok ())) ∧
    ((generatePagesRun (extT semResolveOnly) cfgT 50 (engOf (stPg "docs/page"))).map
      (fun r => (r.resolvedFlag, r.eng.st.errorCount, r.eng.st.outputData.html,
                 r.eng.effects)) =
      .ok (true, 0,
        [{ source := "pg", path := "./out/docs/page/index.html", time := "T" }],
        [.write "./out/docs/page/index.html" "X"])) := by
  refine ⟨?_, by rfl⟩
  intro sem r g hname h0 hfix henv
  simp only [generateDone, hname, h0, Eng.addLog, if_true, gt_iff_lt,
    lt_self_iff_false, if_false]
  rw [generateSimple_pg sem
    { eng := { st := r.eng.st, effects := r.eng.effects,
               logs := r.eng.logs ++ ["Generator Resolved: " ++ "pg"] },
      toRender := r.toRender + 1, resolvedFlag := r.resolvedFlag }
    g.generate ⟨henv.1, henv.2.1, henv.2.2⟩ hfix]
  simp only [processGeneratorResponse, checkDone, settledRun]
  simp

/-- Witness for C7: the general auto-render statement applied at the
concrete single-request state with target `docs/page`. -/
theorem c7_zero_wildcard_witness :
    generateDone (extT semResolveOnly) cfgT 50
      { name := "pg", generate := "docs/page", triggeredBy := "", reason := .Modified }
      { eng := engOf (stPg "docs/page"), toRender := 1, resolvedFlag := false } 0
      Option.none =
      ({ eng := { engOf (stPg "docs/page") with
            st := { (stPg "docs/page") with
              templateDepTree := markDependsOn (stPg "docs/page").templateDepTree "pg" "pg",
              outputData := { (stPg "docs/page").outputData with
                html := (stPg "docs/page").outputData.html ++
                  [{ source := "pg", path := "./" ++ "out" ++ "/" ++ "docs/page" ++ "/index.html",
                     time := "T" }] } },
            effects := (engOf (stPg "docs/page")).effects ++
              [.write ("./" ++ "out" ++ "/" ++ "docs/page" ++ "/index.html") "X"],
            logs := ((engOf (stPg "docs/page")).logs ++ ["Generator Resolved: pg"]) ++
              ["Wrote: " ++ ("./" ++ "out" ++ "/" ++ "docs/page" ++ "/index.html")] },
         toRender := 1 + 1 - 1 - 1,
         resolvedFlag := (false || ((1 : Int) + 1 - 1 = 0)) || ((1 : Int) + 1 - 1 - 1 = 0) },
       .ok ()) :=
  c7_zero_wildcard.1 semResolveOnly
    { eng := engOf (stPg "docs/page"), toRender := 1, resolvedFlag := false }
    { name := "pg", generate := "docs/page", triggeredBy := "", reason := .Modified }
    (by rfl) (by decide) (by rfl) ⟨by rfl, by rfl, by rfl⟩

/-- The guarded output location of a page rendered at `p` (output root
`out`, external resolve the identity). -/
def wPath (p : String) : String :=
  "./" ++ "out" ++ "/" ++ p ++ "/index.html"

/-- The HTML ledger record of page `pg` rendered at `p`. -/
def mkHtmlEntry (p : String) : FilesWritten :=
  { source := "pg", path := wPath p, time := "T" }

/-- The batch fan-out loop over `pg` page requests: each fragment yields
exactly one render at its wildcard-substituted path, each settled
individually; the render count grows by the number of fragments and the
outstanding counter shrinks by it. -/
theorem renderBatchPages_pg (sem : String → List ScriptAct) (target : String)
    (frags : List String) :
    ∀ (r : Run) (rendered : Nat), pgEnvOk r.eng →
    (∀ f ∈ frags, fixPath (jsReplaceStar target f) = jsReplaceStar target f) →
    (renderBatchPages (extT sem) cfgT 50 "pg" target r rendered
        (frags.map (fun f => { path := f, data := [] }))).2 = rendered + frags.length ∧
    (renderBatchPages (extT sem) cfgT 50 "pg" target r rendered
        (frags.map (fun f => { path := f, data := [] }))).1.eng.st.outputData.html =
      r.eng.st.outputData.html ++ frags.map (fun f => mkHtmlEntry (jsReplaceStar target f)) ∧
    (renderBatchPages (extT sem) cfgT 50 "pg" target r rendered
        (frags.map (fun f => { path := f, data := [] }))).1.eng.effects =
      r.eng.effects ++ frags.map (fun f => FsEffect.write (wPath (jsReplaceStar target f)) "X") ∧
    (renderBatchPages (extT sem) cfgT 50 "pg" target r rendered
        (frags.map (fun f => { path := f, data := [] }))).1.eng.st.errorCount =
      r.eng.st.errorCount ∧
    (renderBatchPages (extT sem) cfgT 50 "pg" target r rendered
        (frags.map (fun f => { path := f, data := [] }))).1.toRender =
      r.toRender - frags.length ∧
    pgEnvOk (renderBatchPages (extT sem) cfgT 50 "pg" target r rendered
        (frags.map (fun f => { path := f, data := [] }))).1.eng := by
  induction frags with
  | nil =>
    intro r rendered henv _
    refine ⟨by simp [renderBatchPages], by simp [renderBatchPages],
      by simp [renderBatchPages], by simp [renderBatchPages],
      by simp [renderBatchPages], by simpa [renderBatchPages] using henv⟩
  | cons f fs ih =>
    intro r rendered henv hfr
    have hf : fixPath (jsReplaceStar target f) = jsReplaceStar target f :=
      hfr f (List.mem_cons_self f fs)
    have hfs : ∀ x ∈ fs, fixPath (jsReplaceStar target x) = jsReplaceStar target x :=
      fun x hx => hfr x (List.mem_cons_of_mem f hx)
    simp only [List.map_cons, renderBatchPages]
    rw [renderAndSettle_pg sem r (jsReplaceStar target f) _ henv hf]
    obtain ⟨h1, h2, h3, h4, h5, h6⟩ :=
      ih (settledRun r (jsReplaceStar target f)) (rendered + 1)
        ⟨henv.1, henv.2.1, henv.2.2⟩ hfs
    refine ⟨?_, ?_, ?_, ?_, ?_, h6⟩
    · rw [h1]
      simp only [List.length_cons]
      omega
    · rw [h2]
      simp [mkHtmlEntry, wPath, settledRun]
    · rw [h3]
      simp [wPath, settledRun]
    · rw [h4]
      simp [settledRun]
    · rw [h5]
      simp only [settledRun, List.length_cons]
      omega

/-- The batch callback on a one-wildcard target: validation passes; an
empty batch only logs, a non-empty one grows the counter and fans out. -/
theorem generateBatchCb_one_star (ext : Ext) (cfg : Config) (fuel : Nat)
    (g : ToGenerateData) (r : Run) (rendered : Nat) (ps : List PageGenerateRequest)
    (h1 : countStars g.generate = 1) :
    generateBatchCb ext cfg fuel g r rendered (.list ps) =
      (if ps.length = 0 then
        (({ r with eng := r.eng.addLog ("Generating batch pages for: " ++ g.name) }, rendered),
         .ok ())
      else
        (renderBatchPages ext cfg fuel g.name g.generate
          { r with eng := r.eng.addLog ("Generating batch pages for: " ++ g.name),
                   toRender := r.toRender + ps.length } rendered ps, .ok ())) := by
  simp only [generateBatchCb, h1]
  norm_num

/-- The resolve handler when nothing was rendered but the target has a
wildcard: no auto-render either (the request is simply settled). -/
theorem generateDone_star_resolve (ext : Ext) (cfg : Config) (fuel : Nat)
    (g : ToGenerateData) (r : Run) (hstar : 0 < countStars g.generate) :
    generateDone ext cfg fuel g r 0 Option.none =
      ({ eng := r.eng.addLog ("Generator Resolved: " ++ g.name),
         toRender := r.toRender - 1,
         resolvedFlag := r.resolvedFlag || (r.toRender - 1 = 0) }, .ok ()) := by
  simp only [generateDone, processGeneratorResponse, checkDone, Eng.addLog]
  simp [hstar]

/-- The resolve handler after a non-empty batch: no auto-render, the
request itself settles. -/
theorem generateDone_after_batch (ext : Ext) (cfg : Config) (fuel : Nat)
    (g : ToGenerateData) (r : Run) (rendered : Nat) (h0 : rendered ≠ 0) :
    generateDone ext cfg fuel g r rendered Option.none =
      ({ eng := r.eng.addLog ("Generator Resolved: " ++ g.name),
         toRender := r.toRender - 1,
         resolvedFlag := r.resolvedFlag || (r.toRender - 1 = 0) }, .ok ()) := by
  simp only [generateDone, h0, processGeneratorResponse, checkDone, Eng.addLog]
  simp [h0]

/-- C5: wildcard batch correctness.  (1) Generally: for any generate
target with exactly one wildcard and any batch of path fragments (plain
fragments: no `$` replacement patterns, and the substituted path is a
fix-point of the trailing-slash trim), the run renders exactly one page
per fragment, the i-th at the path obtained by substituting the wildcard
with the i-th fragment, with no errors, and resolves.  (2) In particular,
target `blog/*` with fragments `a` and `b` produces exactly two outputs,
at `blog/a/index.html` and `blog/b/index.html` under the output root. -/
theorem c5_wildcard_batch :
    (∀ (target : String) (frags : List String),
      countStars target = 1 →
      (∀ f ∈ frags, '$' ∉ f.data ∧ fixPath (substStar target f) = substStar target f) →
      (generatePagesRun (extT (semBatchOf frags)) cfgT 50 (engOf (stPg target))).map
        (fun r => (r.resolvedFlag, r.eng.st.errorCount, r.eng.st.outputData.html,
                   r.eng.effects)) =
        .ok (true, 0,
          frags.map (fun f => mkHtmlEntry (substStar target f)),
          frags.map (fun f => FsEffect.write (wPath (substStar target f)) "X"))) ∧
    ((generatePagesRun (extT (semBatchOf ["a", "b"])) cfgT 50 (engOf (stPg "blog/*"))).map
      (fun r => (r.resolvedFlag, r.eng.st.errorCount, r.eng.st.outputData.html,
                 r.eng.effects)) =
      .ok (true, 0,
        [{ source := "pg", path := "./out/blog/a/index.html", time := "T" },
         { source := "pg", path := "./out/blog/b/index.html", time := "T" }],
        [.write "./out/blog/a/index.html" "X", .write "./out/blog/b/index.html" "X"])) := by
  refine ⟨?_, by rfl⟩
  intro target frags h1 hin
  have hsub : ∀ f ∈ frags, jsReplaceStar target f = substStar target f :=
    fun f hf => jsReplaceStar_eq_substStar target f (hin f hf).1
  have hfix : ∀ f ∈ frags, fixPath (jsReplaceStar target f) = jsReplaceStar target f := by
    intro f hf
    rw [hsub f hf]
    exact (hin f hf).2
  have hsv : getGenerateScript (engOf (stPg target)).st "pg" = "S" := rfl
  have hs : getGenerateScript (engOf (stPg target)).st "pg" ≠ "" := by
    rw [hsv]
    decide
  have hq : (engOf (stPg target)).st.toGenerate.map Prod.snd =
      [{ name := "pg", generate := target, triggeredBy := "",
         reason := TriggerReason.Modified }] := rfl
  simp only [generatePagesRun, hq, List.length_cons, List.length_nil]
  rw [if_neg (by decide : ¬ (0 + 1 = 0))]
  simp only [processRequests]
  rw [processOneRequest_script (extT (semBatchOf frags)) cfgT 50
    { eng := engOf (stPg target), toRender := ((0 + 1 : Nat) : Int), resolvedFlag := false }
    { name := "pg", generate := target, triggeredBy := "", reason := TriggerReason.Modified }
    [("shared", [])] hs (by rfl)]
  have hacts : ∀ s, (extT (semBatchOf frags)).scriptSem s =
      [ScriptAct.callGenerate (.list (frags.map (fun f => { path := f, data := [] }))),
       ScriptAct.callResolve Option.none] := fun _ => rfl
  simp only [hacts, runScriptActs]
  rw [generateBatchCb_one_star]
  · have herase : smapErase (engOf (stPg target)).st.toGenerate "pg" = [] := rfl
    simp only [engOf, stPg, TState.initial, Eng.addLog, herase, List.length_map,
      List.nil_append, Nat.zero_add, Nat.cast_ofNat, Nat.cast_one]
    by_cases hfe : frags = []
    · subst hfe
      simp only [List.length_nil, List.map_nil, if_true]
      rw [generateDone_star_resolve (extT (semBatchOf [])) cfgT 50
        { name := "pg", generate := target, triggeredBy := "",
          reason := TriggerReason.Modified } _ (by show 0 < countStars target; omega)]
      rfl
    · rw [if_neg (by simpa [List.length_eq_zero] using hfe)]
      have hl : frags.length ≠ 0 := by simpa [List.length_eq_zero] using hfe
      obtain ⟨b1, b2, b3, b4, b5, b6⟩ :=
        renderBatchPages_pg (semBatchOf frags) target frags
          { eng := { st := { generateScripts := [("pg", "S")], generateScriptRefs := [], entryScripts := [], templateDepTree := [], pathDepTree := [], wildDepTree := [], globalDeps := [], frontMatter := [("pg", [])], templates := [("pg", [TPart.text "X"])], toGenerate := smapErase [("pg", { name := "pg", generate := target, triggeredBy := "", reason := TriggerReason.Modified })] "pg", globalData := [], cache := [("shared", [])], outputData := { html := [], entry := [], lib := [], json := [], outData := [] }, errorCount := 0 }, effects := [], logs := ["Generating batch pages for: " ++ "pg"] }, toRender := 1 + (frags.length : Int), resolvedFlag := false }
          0 ⟨rfl, rfl, rfl⟩ hfix
      generalize hcall : renderBatchPages (extT (semBatchOf frags)) cfgT 50 "pg" target
          { eng := { st := { generateScripts := [("pg", "S")], generateScriptRefs := [], entryScripts := [], templateDepTree := [], pathDepTree := [], wildDepTree := [], globalDeps := [], frontMatter := [("pg", [])], templates := [("pg", [TPart.text "X"])], toGenerate := smapErase [("pg", { name := "pg", generate := target, triggeredBy := "", reason := TriggerReason.Modified })] "pg", globalData := [], cache := [("shared", [])], outputData := { html := [], entry := [], lib := [], json := [], outData := [] }, errorCount := 0 }, effects := [], logs := ["Generating batch pages for: " ++ "pg"] }, toRender := 1 + (frags.length : Int), resolvedFlag := false }
          0 (List.map (fun f => { path := f, data := [] }) frags) = res
        at b1 b2 b3 b4 b5 ⊢
      obtain ⟨r₁, n₁⟩ := res
      simp only [] at b1 b2 b3 b4 b5 ⊢
      have hne : n₁ ≠ 0 := by omega
      rw [generateDone_after_batch (extT (semBatchOf frags)) cfgT 50 _ _ _ hne]
      have htr : r₁.toRender - 1 = 0 := by omega
      simp only [Eng.addLog, htr]
      simp only [List.nil_append] at b2 b3
      have hm1 : frags.map (fun f => mkHtmlEntry (jsReplaceStar target f)) =
          frags.map (fun f => mkHtmlEntry (substStar target f)) :=
        List.map_congr_left (fun f hf => by rw [hsub f hf])
      have hm2 : frags.map (fun f => FsEffect.write (wPath (jsReplaceStar target f)) "X") =
          frags.map (fun f => FsEffect.write (wPath (substStar target f)) "X") :=
        List.map_congr_left (fun f hf => by rw [hsub f hf])
      simp [Except.map, b2, b3, b4, hm1, hm2]
  · exact h1

/-- Witness for C5: the general wildcard-batch statement applied at target
`blog/*` with fragments `a` and `b`. -/
theorem c5_wildcard_batch_witness :
    (generatePagesRun (extT (semBatchOf ["a", "b"])) cfgT 50 (engOf (stPg "blog/*"))).map
      (fun r => (r.resolvedFlag, r.eng.st.errorCount, r.eng.st.outputData.html,
                 r.eng.effects)) =
      .ok (true, 0,
        ["a", "b"].map (fun f => mkHtmlEntry (substStar "blog/*" f)),
        ["a", "b"].map (fun f => FsEffect.write (wPath (substStar "blog/*" f)) "X")) :=
  c5_wildcard_batch.1 "blog/*" ["a", "b"] (by decide) (by decide)

/-- Witness for the amended C9: a past numeric entry is purged, the
invalid-expiry cache errors, the error aborts the request processing, and
a clean scan leaves the purged cache visible to the script. -/
theorem c9_amended_witness :
    expireCache 1000 [("shared", [("old", { expires := .num 5, data := .str "d" })])] =
      .ok [("shared", [])] ∧
    (∃ e, expireCache 1000 stInvalid.cache = .error e) ∧
    processOneRequest (extT semResolveOnly) cfgT 50
      { eng := engOf stInvalid, toRender := 1, resolvedFlag := false }
      { name := "pg", generate := "x", triggeredBy := "", reason := .Modified } =
      .error "shared cache item bad expires date is invalid" ∧
    processOneRequest (extT (fun _ => [])) cfgT 50
      { eng := engOf stPast, toRender := 1, resolvedFlag := false }
      { name := "pg", generate := "x", triggeredBy := "", reason := .Modified } =
      .ok { eng := { engOf stPast with st := { stPast with
              toGenerate := smapErase stPast.toGenerate "pg",
              cache := [("shared", [])] } },
            toRender := 1, resolvedFlag := false } := by
  refine ⟨?_, ?_, ?_, ?_⟩
  · exact c9_amended.1 1000 _ (by decide)
  · exact c9_amended.2.1 1000 _ (by decide)
  · exact c9_amended.2.2.1 _ _ _ _ _ _ (by decide) (by rfl)
  · exact c9_amended.2.2.2 _ _ _ _ _ _ (by decide) (by rfl) (by rfl)


/-- An effect emitted by the write guard passed the containment test. -/
theorem safeOutputCheckWrite_safe (isRel : String → String → Bool) (outPath p c : String)
    (eff : FsEffect) (h : safeOutputCheckWrite isRel outPath p c = .ok eff) :
    effectSafe isRel outPath eff = true := by
  unfold safeOutputCheckWrite at h
  by_cases hr : isRel outPath p = true
  · rw [if_neg (by simp [hr])] at h
    cases h
    simpa [effectSafe, effectPath]
  · rw [if_pos (by simpa using hr)] at h
    simp at h

/-- An effect emitted by the mkdir guard passed the containment test. -/
theorem safeOutputCheckMkdir_safe (isRel : String → String → Bool) (outPath p : String)
    (eff : FsEffect) (h : safeOutputCheckMkdir isRel outPath p = .ok eff) :
    effectSafe isRel outPath eff = true := by
  unfold safeOutputCheckMkdir at h
  by_cases hr : isRel outPath p = true
  · rw [if_neg (by simp [hr])] at h
    cases h
    simpa [effectSafe, effectPath]
  · rw [if_pos (by simpa using hr)] at h
    simp at h

/-- When the containment test rejects everything, the write guard throws. -/
theorem safeOutputCheckWrite_err (isRel : String → String → Bool) (outPath p c : String)
    (hko : isRel outPath p = false) :
    safeOutputCheckWrite isRel outPath p c =
      .error ("Trying to write " ++ p ++ " which is outside of " ++ outPath) := by
  unfold safeOutputCheckWrite
  rw [if_pos (by simp [hko])]

/-- When the containment test rejects everything, the mkdir guard throws. -/
theorem safeOutputCheckMkdir_err (isRel : String → String → Bool) (outPath p : String)
    (hko : isRel outPath p = false) :
    safeOutputCheckMkdir isRel outPath p =
      .error ("Trying to write " ++ p ++ " which is outside of " ++ outPath) := by
  unfold safeOutputCheckMkdir
  rw [if_pos (by simp [hko])]

/-- `writeEntryScript` only ever adds effects that passed the containment
test: an engine whose effect trace is within the output root keeps that
invariant. -/
theorem writeEntryScript_safe (ext : Ext) (cfg : Config) (eng : Eng)
    (template script path name : String)
    (h : ∀ eff ∈ eng.effects, effectSafe ext.isRelative cfg.outputDir eff = true) :
    ∀ eff ∈ (writeEntryScript ext cfg eng template script path name).1.effects,
      effectSafe ext.isRelative cfg.outputDir eff = true := by
  intro eff hmem
  by_cases hex : ext.fsExists ("./" ++ cfg.outputDir ++ "/" ++ path) = true
  · simp only [writeEntryScript, hex, not_true, if_neg (by simp : ¬ (False : Prop))] at hmem
    cases hw : safeOutputCheckWrite ext.isRelative cfg.outputDir
        (ext.resolve ("./" ++ cfg.outputDir ++ "/" ++ path ++ "/" ++ name)) script with
    | error e =>
      rw [hw] at hmem
      simp only [Eng.mapSt] at hmem
      exact h eff hmem
    | ok effw =>
      rw [hw] at hmem
      simp only [Eng.mapSt, Eng.emit, Eng.addLog, List.mem_append, List.mem_singleton] at hmem
      rcases hmem with hmem | hmem
      · exact h eff hmem
      · subst hmem
        exact safeOutputCheckWrite_safe _ _ _ _ _ hw
  · cases hmk : safeOutputCheckMkdir ext.isRelative cfg.outputDir
        ("./" ++ cfg.outputDir ++ "/" ++ path) with
    | error e =>
      simp only [writeEntryScript, hex, not_false_iff, if_pos trivial, hmk] at hmem
      exact h eff hmem
    | ok effm =>
      simp only [writeEntryScript, hex, not_false_iff, if_pos trivial, hmk] at hmem
      cases hw : safeOutputCheckWrite ext.isRelative cfg.outputDir
          (ext.resolve ("./" ++ cfg.outputDir ++ "/" ++ path ++ "/" ++ name)) script with
      | error e =>
        rw [hw] at hmem
        simp only [Eng.mapSt, Eng.emit] at hmem
        rcases List.mem_append.1 hmem with hmem | hmem
        · exact h eff hmem
        · rw [List.mem_singleton.1 hmem]
          exact safeOutputCheckMkdir_safe _ _ _ _ hmk
      | ok effw =>
        rw [hw] at hmem
        simp only [Eng.mapSt, Eng.emit, Eng.addLog] at hmem
        rcases List.mem_append.1 hmem with hmem | hmem
        · rcases List.mem_append.1 hmem with hmem | hmem
          · exact h eff hmem
          · rw [List.mem_singleton.1 hmem]
            exact safeOutputCheckMkdir_safe _ _ _ _ hmk
        · rw [List.mem_singleton.1 hmem]
          exact safeOutputCheckWrite_safe _ _ _ _ _ hw

/-- `renderTemplate` only ever adds effects that passed the containment
test. -/
theorem renderTemplate_safe (ext : Ext) (cfg : Config) (eng : Eng) (fuel : Nat)
    (template path₀ : String) (data : PageData)
    (h : ∀ eff ∈ eng.effects, effectSafe ext.isRelative cfg.outputDir eff = true) :
    ∀ eff ∈ (renderTemplate ext cfg eng fuel template path₀ data).1.effects,
      effectSafe ext.isRelative cfg.outputDir eff = true := by
  intro eff hmem
  simp only [renderTemplate] at hmem
  split at hmem
  · simp only [renderTemplateFail, Eng.mapSt] at hmem
    exact h eff hmem
  · split at hmem
    · rename_i eng₁ e heq
      split at heq
      · split at heq
        · rename_i e2 hm2
          cases heq
          simp only [renderTemplateFail, Eng.mapSt] at hmem
          exact h eff hmem
        · rename_i effm hm2
          simp at heq
      · simp at heq
    · rename_i eng₁ u heq
      split at hmem
      · rename_i e hw
        split at heq
        · split at heq
          · rename_i e2 hm2
            simp at heq
          · rename_i effm hm2
            cases heq
            simp only [renderTemplateFail, Eng.mapSt, Eng.emit] at hmem
            rcases List.mem_append.1 hmem with hm | hm
            · exact h eff hm
            · rw [List.mem_singleton.1 hm]
              exact safeOutputCheckMkdir_safe _ _ _ _ hm2
        · cases heq
          simp only [renderTemplateFail, Eng.mapSt] at hmem
          exact h eff hmem
      · rename_i effw hw
        split at heq
        · split at heq
          · rename_i e2 hm2
            simp at heq
          · rename_i effm hm2
            cases heq
            simp only [Eng.mapSt, Eng.emit, Eng.addLog] at hmem
            rcases List.mem_append.1 hmem with hm | hm
            · rcases List.mem_append.1 hm with hm | hm
              · exact h eff hm
              · rw [List.mem_singleton.1 hm]
                exact safeOutputCheckMkdir_safe _ _ _ _ hm2
            · rw [List.mem_singleton.1 hm]
              exact safeOutputCheckWrite_safe _ _ _ _ _ hw
        · cases heq
          simp only [Eng.mapSt, Eng.emit, Eng.addLog] at hmem
          rcases List.mem_append.1 hmem with hm | hm
          · exact h eff hm
          · rw [List.mem_singleton.1 hm]
            exact safeOutputCheckWrite_safe _ _ _ _ _ hw

/-- The `siteFiles` loop only ever adds effects that passed the
containment test. -/
theorem writeSiteFiles_safe (ext : Ext) (cfg : Config) (name : String)
    (files : List (String × JsVal)) :
    ∀ (eng : Eng),
      (∀ eff ∈ eng.effects, effectSafe ext.isRelative cfg.outputDir eff = true) →
      ∀ eff ∈ (writeSiteFiles ext cfg name eng files).1.effects,
        effectSafe ext.isRelative cfg.outputDir eff = true := by
  induction files with
  | nil =>
    intro eng h eff hmem
    simp only [writeSiteFiles] at hmem
    exact h eff hmem
  | cons fv rest ih =>
    obtain ⟨file, v⟩ := fv
    intro eng h eff hmem
    simp only [writeSiteFiles] at hmem
    split at hmem
    · rename_i eng₁ e heq
      split at heq
      · split at heq
        · rename_i e2 hm2
          cases heq
          exact h eff hmem
        · rename_i effm hm2
          simp at heq
      · simp at heq
    · rename_i eng₁ u heq
      split at hmem
      · rename_i e hw
        split at heq
        · split at heq
          · rename_i e2 hm2
            simp at heq
          · rename_i effm hm2
            cases heq
            simp only [Eng.mapSt, Eng.emit] at hmem
            rcases List.mem_append.1 hmem with hm | hm
            · exact h eff hm
            · rw [List.mem_singleton.1 hm]
              exact safeOutputCheckMkdir_safe _ _ _ _ hm2
        · cases heq
          simp only [Eng.mapSt] at hmem
          exact h eff hmem
      · rename_i effw hw
        split at heq
        · split at heq
          · rename_i e2 hm2
            simp at heq
          · rename_i effm hm2
            cases heq
            refine ih _ ?_ eff hmem
            intro e2 he2
            simp only [Eng.mapSt, Eng.emit, Eng.addLog] at he2
            rcases List.mem_append.1 he2 with hm | hm
            · rcases List.mem_append.1 hm with hm | hm
              · exact h e2 hm
              · rw [List.mem_singleton.1 hm]
                exact safeOutputCheckMkdir_safe _ _ _ _ hm2
            · rw [List.mem_singleton.1 hm]
              exact safeOutputCheckWrite_safe _ _ _ _ _ hw
        · cases heq
          refine ih _ ?_ eff hmem
          intro e2 he2
          simp only [Eng.mapSt, Eng.emit, Eng.addLog] at he2
          rcases List.mem_append.1 he2 with hm | hm
          · exact h e2 hm
          · rw [List.mem_singleton.1 hm]
            exact safeOutputCheckWrite_safe _ _ _ _ _ hw

/-- Pair form of the `siteFiles` invariant, keyed on the loop's result
equation. -/
theorem writeSiteFiles_safe_pair {ext : Ext} {cfg : Config} {name : String}
    {files : List (String × JsVal)} {eng eng₃ : Eng} {x : Except String Unit}
    (heq : writeSiteFiles ext cfg name eng files = (eng₃, x))
    (h : ∀ eff ∈ eng.effects, effectSafe ext.isRelative cfg.outputDir eff = true) :
    ∀ eff ∈ eng₃.effects, effectSafe ext.isRelative cfg.outputDir eff = true := by
  intro eff hm
  have hh := writeSiteFiles_safe ext cfg name files eng h eff
  rw [heq] at hh
  exact hh hm

/-- `processGeneratorResponse` only ever adds effects that passed the
containment test. -/
theorem processGeneratorResponse_safe (ext : Ext) (cfg : Config) (eng : Eng)
    (resp : Option GenResponse) (name cacheName : String)
    (h : ∀ eff ∈ eng.effects, effectSafe ext.isRelative cfg.outputDir eff = true) :
    ∀ eff ∈ (processGeneratorResponse ext cfg eng resp name cacheName).1.effects,
      effectSafe ext.isRelative cfg.outputDir eff = true := by
  intro eff hmem
  cases resp with
  | none =>
    simp only [processGeneratorResponse] at hmem
    exact h eff hmem
  | some r =>
    cases hc : r.cache <;> cases ho : r.outData <;>
      simp only [processGeneratorResponse, hc, ho] at hmem
    all_goals
      split at hmem
      · rename_i eng₃ e heq
        split at heq
        · rename_i files hsf
          exact writeSiteFiles_safe_pair heq
            (fun e2 he2 => h e2
              (by simpa only [Eng.mapSt] using he2)) eff hmem
        · rename_i hsf
          simp at heq
      · rename_i eng₃ u heq
        split at hmem <;> split at hmem <;>
          (have hm3 : eff ∈ eng₃.effects := by
            simpa only [Eng.mapSt] using hmem) <;>
          (split at heq
           · rename_i files hsf
             exact writeSiteFiles_safe_pair heq
               (fun e2 he2 => h e2
                 (by simpa only [Eng.mapSt] using he2)) eff hm3
           · rename_i hsf
             cases heq
             exact h eff (by simpa only [Eng.mapSt] using hm3))

/-- `processScript` only ever adds effects that passed the containment
test (only the lib-script branch writes at all). -/
theorem processScript_safe (ext : Ext) (cfg : Config) (eng : Eng) (source name : String)
    (h : ∀ eff ∈ eng.effects, effectSafe ext.isRelative cfg.outputDir eff = true) :
    ∀ eff ∈ (processScript ext cfg eng source name).1.effects,
      effectSafe ext.isRelative cfg.outputDir eff = true := by
  intro eff hmem
  simp only [processScript] at hmem
  split at hmem
  · exact h eff (by simpa only [Eng.mapSt] using hmem)
  · split at hmem
    · split at hmem
      · exact h eff (by simpa only [Eng.mapSt] using hmem)
      · exact h eff (by simpa only [Eng.addLog] using hmem)
    · split at hmem
      · exact h eff (by simpa only [Eng.mapSt] using hmem)
      · split at hmem
        · split at hmem
          · rename_i eng₁ e heq
            split at heq
            · split at heq
              · rename_i e2 hm2
                cases heq
                exact h eff hmem
              · rename_i effm hm2
                simp at heq
            · simp at heq
          · rename_i eng₁ u heq
            split at hmem
            · rename_i e hw
              split at heq
              · split at heq
                · rename_i e2 hm2
                  simp at heq
                · rename_i effm hm2
                  cases heq
                  simp only [Eng.mapSt, Eng.emit] at hmem
                  rcases List.mem_append.1 hmem with hm | hm
                  · exact h eff hm
                  · rw [List.mem_singleton.1 hm]
                    exact safeOutputCheckMkdir_safe _ _ _ _ hm2
              · cases heq
                simp only [Eng.mapSt] at hmem
                exact h eff hmem
            · rename_i effw hw
              split at heq
              · split at heq
                · rename_i e2 hm2
                  simp at heq
                · rename_i effm hm2
                  cases heq
                  simp only [Eng.mapSt, Eng.emit, Eng.addLog] at hmem
                  rcases List.mem_append.1 hmem with hm | hm
                  · rcases List.mem_append.1 hm with hm | hm
                    · exact h eff hm
                    · rw [List.mem_singleton.1 hm]
                      exact safeOutputCheckMkdir_safe _ _ _ _ hm2
                  · rw [List.mem_singleton.1 hm]
                    exact safeOutputCheckWrite_safe _ _ _ _ _ hw
              · cases heq
                simp only [Eng.mapSt, Eng.emit, Eng.addLog] at hmem
                rcases List.mem_append.1 hmem with hm | hm
                · exact h eff hm
                · rw [List.mem_singleton.1 hm]
                  exact safeOutputCheckWrite_safe _ _ _ _ _ hw
        · exact h eff hmem

/-- When the containment test rejects every path, `renderTemplate` throws
before performing any filesystem mutation: the effect trace is unchanged
and the call returns an error. -/
theorem renderTemplate_escape (ext : Ext) (cfg : Config) (eng : Eng) (fuel : Nat)
    (template path₀ : String) (data : PageData)
    (hko : ∀ p, ext.isRelative cfg.outputDir p = false) :
    (renderTemplate ext cfg eng fuel template path₀ data).1.effects = eng.effects ∧
    ∃ e, (renderTemplate ext cfg eng fuel template path₀ data).2 = .error e := by
  simp only [renderTemplate]
  split
  · exact ⟨rfl, _, rfl⟩
  · rw [safeOutputCheckMkdir_err ext.isRelative cfg.outputDir _ (hko _),
        safeOutputCheckWrite_err ext.isRelative cfg.outputDir _ _ (hko _)]
    by_cases hex : ext.fsExists ("./" ++ cfg.outputDir ++ "/" ++ fixPath path₀) = true
    · rw [if_neg (by simp [hex])]
      exact ⟨rfl, _, rfl⟩
    · rw [if_pos (by simpa using hex)]
      exact ⟨rfl, _, rfl⟩

/-- When the containment test rejects every path, `writeEntryScript`
throws before performing any filesystem mutation. -/
theorem writeEntryScript_escape (ext : Ext) (cfg : Config) (eng : Eng)
    (template script path name : String)
    (hko : ∀ p, ext.isRelative cfg.outputDir p = false) :
    (writeEntryScript ext cfg eng template script path name).1.effects = eng.effects ∧
    ∃ e, (writeEntryScript ext cfg eng template script path name).2 = .error e := by
  simp only [writeEntryScript]
  rw [safeOutputCheckMkdir_err ext.isRelative cfg.outputDir _ (hko _),
      safeOutputCheckWrite_err ext.isRelative cfg.outputDir _ _ (hko _)]
  by_cases hex : ext.fsExists ("./" ++ cfg.outputDir ++ "/" ++ path) = true
  · rw [if_neg (by simp [hex])]
    exact ⟨rfl, _, rfl⟩
  · rw [if_pos (by simpa using hex)]
    exact ⟨rfl, _, rfl⟩

/-- When the containment test rejects every path, the lib-script branch of
`processScript` throws before performing any filesystem mutation. -/
theorem processScript_escape (ext : Ext) (cfg : Config) (eng : Eng) (source name : String)
    (h1 : strStarts source SCRIPT_GENERATE = false)
    (h2 : strStarts source SCRIPT_GENERATE_USE = false)
    (h3 : strStarts source SCRIPT_ENTRY = false)
    (h4 : strStarts source SCRIPT_LIB = true)
    (hko : ∀ p, ext.isRelative cfg.outputDir p = false) :
    (processScript ext cfg eng source name).1.effects = eng.effects ∧
    ∃ e, (processScript ext cfg eng source name).2 = .error e := by
  simp only [processScript, h1, h2, h3, h4, Bool.false_eq_true, if_false, if_true]
  rw [safeOutputCheckMkdir_err ext.isRelative cfg.outputDir _ (hko _),
      safeOutputCheckWrite_err ext.isRelative cfg.outputDir _ _ (hko _)]
  by_cases hex : ext.fsExists (cfg.outputDir ++ "/js" ++ "/" ++ parseDir name) = true
  · rw [if_neg (by simp [hex])]
    exact ⟨rfl, _, rfl⟩
  · rw [if_pos (by simpa using hex)]
    exact ⟨rfl, _, rfl⟩

/-- Pair form of the escape property for a non-empty `siteFiles` batch:
the loop throws on its first file before mutating anything. -/
theorem writeSiteFiles_escape_pair {ext : Ext} {cfg : Config} {name : String}
    {f : String} {v : JsVal} {rest : List (String × JsVal)} {eng eng₃ : Eng}
    {x : Except String Unit}
    (heq : writeSiteFiles ext cfg name eng ((f, v) :: rest) = (eng₃, x))
    (hko : ∀ p, ext.isRelative cfg.outputDir p = false) :
    eng₃.effects = eng.effects ∧ ∃ e, x = .error e := by
  simp only [writeSiteFiles] at heq
  rw [safeOutputCheckMkdir_err ext.isRelative cfg.outputDir _ (hko _),
      safeOutputCheckWrite_err ext.isRelative cfg.outputDir _ _ (hko _)] at heq
  by_cases hex : ext.fsExists (parseDir (ext.resolve ("./" ++ cfg.outputDir ++ "/" ++ f))) = true
  · rw [if_neg (by simp [hex])] at heq
    simp only [] at heq
    cases heq
    exact ⟨rfl, _, rfl⟩
  · rw [if_pos (by simpa using hex)] at heq
    simp only [] at heq
    cases heq
    exact ⟨rfl, _, rfl⟩

/-- When the containment test rejects every path and the script's resolve
payload carries a non-empty `siteFiles` batch, `processGeneratorResponse`
throws before performing any filesystem mutation. -/
theorem processGeneratorResponse_escape (ext : Ext) (cfg : Config) (eng : Eng)
    (r : GenResponse) (name cacheName : String) (f : String) (v : JsVal)
    (rest : List (String × JsVal))
    (hsf : r.siteFiles = some ((f, v) :: rest))
    (hko : ∀ p, ext.isRelative cfg.outputDir p = false) :
    (processGeneratorResponse ext cfg eng (some r) name cacheName).1.effects = eng.effects ∧
    ∃ e, (processGeneratorResponse ext cfg eng (some r) name cacheName).2 = .error e := by
  cases hc : r.cache <;> cases ho : r.outData <;>
    simp only [processGeneratorResponse, hc, ho, hsf]
  all_goals
    split
    · rename_i eng₃ e heq
      obtain ⟨hfx, e2, hx⟩ := writeSiteFiles_escape_pair heq hko
      refine ⟨?_, e, rfl⟩
      simp only [hfx, Eng.mapSt]
    · rename_i eng₃ u heq
      obtain ⟨hfx, e2, hx⟩ := writeSiteFiles_escape_pair heq hko
      cases hx

/-- External primitives whose containment test rejects every path: used to
exhibit the guards' hard failure. -/
def extF : Ext :=
  { isRelative := fun _ _ => false, resolve := id, fsExists := fun _ => true,
    stringify := fun _ => "json", now := "T", nowMs := 1000,
    scriptSem := fun _ => [.callResolve Option.none] }

/-- C1: every write operation of the engine (page HTML via
`renderTemplate`, entry script via `writeEntryScript`, lib file via
`processScript`, arbitrary site file via `processGeneratorResponse`'s
`siteFiles` handling) passes its target path through the containment
guard before the filesystem write is performed: an engine whose effect
trace only holds root-contained paths keeps that invariant through each
of the four operations, and when the containment test rejects the paths
the operation returns an error with the effect trace unchanged — the
write never happens. -/
theorem c1_write_containment :
    (∀ (ext : Ext) (cfg : Config) (eng : Eng) (fuel : Nat) (template path₀ : String)
       (data : PageData),
       (∀ eff ∈ eng.effects, effectSafe ext.isRelative cfg.outputDir eff = true) →
       ∀ eff ∈ (renderTemplate ext cfg eng fuel template path₀ data).1.effects,
         effectSafe ext.isRelative cfg.outputDir eff = true) ∧
    (∀ (ext : Ext) (cfg : Config) (eng : Eng) (template script path name : String),
       (∀ eff ∈ eng.effects, effectSafe ext.isRelative cfg.outputDir eff = true) →
       ∀ eff ∈ (writeEntryScript ext cfg eng template script path name).1.effects,
         effectSafe ext.isRelative cfg.outputDir eff = true) ∧
    (∀ (ext : Ext) (cfg : Config) (eng : Eng) (source name : String),
       (∀ eff ∈ eng.effects, effectSafe ext.isRelative cfg.outputDir eff = true) →
       ∀ eff ∈ (processScript ext cfg eng source name).1.effects,
         effectSafe ext.isRelative cfg.outputDir eff = true) ∧
    (∀ (ext : Ext) (cfg : Config) (eng : Eng) (resp : Option GenResponse)
       (name cacheName : String),
       (∀ eff ∈ eng.effects, effectSafe ext.isRelative cfg.outputDir eff = true) →
       ∀ eff ∈ (processGeneratorResponse ext cfg eng resp name cacheName).1.effects,
         effectSafe ext.isRelative cfg.outputDir eff = true) ∧
    (∀ (ext : Ext) (cfg : Config) (eng : Eng) (fuel : Nat) (template path₀ : String)
       (data : PageData),
       (∀ p, ext.isRelative cfg.outputDir p = false) →
       (renderTemplate ext cfg eng fuel template path₀ data).1.effects = eng.effects ∧
       ∃ e, (renderTemplate ext cfg eng fuel template path₀ data).2 = .error e) ∧
    (∀ (ext : Ext) (cfg : Config) (eng : Eng) (template script path name : String),
       (∀ p, ext.isRelative cfg.outputDir p = false) →
       (writeEntryScript ext cfg eng template script path name).1.effects = eng.effects ∧
       ∃ e, (writeEntryScript ext cfg eng template script path name).2 = .error e) ∧
    (∀ (ext : Ext) (cfg : Config) (eng : Eng) (source name : String),
       strStarts source SCRIPT_GENERATE = false →
       strStarts source SCRIPT_GENERATE_USE = false →
       strStarts source SCRIPT_ENTRY = false →
       strStarts source SCRIPT_LIB = true →
       (∀ p, ext.isRelative cfg.outputDir p = false) →
       (processScript ext cfg eng source name).1.effects = eng.effects ∧
       ∃ e, (processScript ext cfg eng source name).2 = .error e) ∧
    (∀ (ext : Ext) (cfg : Config) (eng : Eng) (r : GenResponse)
       (name cacheName : String) (f : String) (v : JsVal)
       (rest : List (String × JsVal)),
       r.siteFiles = some ((f, v) :: rest) →
       (∀ p, ext.isRelative cfg.outputDir p = false) →
       (processGeneratorResponse ext cfg eng (some r) name cacheName).1.effects =
         eng.effects ∧
       ∃ e, (processGeneratorResponse ext cfg eng (some r) name cacheName).2 = .error e) :=
  ⟨renderTemplate_safe, writeEntryScript_safe, processScript_safe,
   processGeneratorResponse_safe, renderTemplate_escape, writeEntryScript_escape,
   processScript_escape,
   fun ext cfg eng r name cacheName f v rest hsf hko =>
     processGeneratorResponse_escape ext cfg eng r name cacheName f v rest hsf hko⟩

/-- Witness for C1: the containment invariant through a concrete entry
script write, and the hard failure of the same write under a containment
test that rejects everything. -/
theorem c1_write_containment_witness :
    (∀ eff ∈ (writeEntryScript (extT semResolveOnly) cfgT (engOf (stPg "p"))
        "pg" "s" "p" "n.js").1.effects,
      effectSafe (extT semResolveOnly).isRelative cfgT.outputDir eff = true) ∧
    ((writeEntryScript extF cfgT (engOf (stPg "p")) "pg" "s" "p" "n.js").1.effects =
        (engOf (stPg "p")).effects ∧
      ∃ e, (writeEntryScript extF cfgT (engOf (stPg "p")) "pg" "s" "p" "n.js").2 =
        .error e) :=
  ⟨c1_write_containment.2.1 (extT semResolveOnly) cfgT (engOf (stPg "p")) "pg" "s" "p" "n.js"
     (by simp [engOf]),
   c1_write_containment.2.2.2.2.2.1 extF cfgT (engOf (stPg "p")) "pg" "s" "p" "n.js"
     (fun p => rfl)⟩

end Templer
